import Mathlib

/-!
Shallow embedding of `django_q/tasks.py` (the client-facing task layer of the
django-q repository) and proofs about its submission, group/chain and result
synchronisation operations.

Modelling conventions:
* Python values that flow through option dictionaries and task packages are
  modelled by the inductive type `Val`; Python `None` is `Val.none` and Python
  truthiness is `Val.truthy`.
* Python dictionaries are association lists (`Dict`); `d.pop(k, dflt)` is
  `popD`, `d.get(k)` is `getD?`, `d[k] = v` is `setKey`.
* External collaborators (the broker, the durable `Task` store, the worker
  engine, `time.time()`) are passed in as oracles: a read that the code
  performs on the n-th iteration of a polling loop is `oracle n`; the elapsed
  milliseconds value tested on the n-th iteration is `elapsed n`.
* Unbounded `while True:` loops take a `fuel` argument; a return value of
  `Option.none` for the whole call means the loop has not terminated within
  `fuel` iterations.  A returned pair `(v, n)` means the loop returned `v`
  after `n` sleeps of the fixed poll interval (a loop that returns on its
  first check returns `(v, 0)` and never sleeps).
* Fallible code paths (Python exceptions such as `IndexError` from
  `chain.pop(0)` or a `q_options` value that is not a dictionary) are
  modelled with `Option`.
-/

namespace DjangoQ

/-- Python values appearing in option dictionaries and task packages. -/
inductive Val where
  | none
  | bool (b : Bool)
  | int (n : Int)
  | str (s : String)
  | tuple (elems : List Val)
  | list (elems : List Val)
  | dict (entries : List (String × Val))
  | broker (handle : Nat)

/-- Structural equality test for `Val` (Python `==` on these shapes). -/
def Val.beq : Val → Val → Bool
  | Val.none, Val.none => true
  | Val.bool a, Val.bool b => a == b
  | Val.int a, Val.int b => a == b
  | Val.str a, Val.str b => a == b
  | Val.tuple a, Val.tuple b => beqList a b
  | Val.list a, Val.list b => beqList a b
  | Val.dict a, Val.dict b => beqEntries a b
  | Val.broker a, Val.broker b => a == b
  | _, _ => false
where
  beqList : List Val → List Val → Bool
    | [], [] => true
    | x :: xs, y :: ys => Val.beq x y && beqList xs ys
    | _, _ => false
  beqEntries : List (String × Val) → List (String × Val) → Bool
    | [], [] => true
    | (k, x) :: xs, (l, y) :: ys => k == l && Val.beq x y && beqEntries xs ys
    | _, _ => false

instance : BEq Val := ⟨Val.beq⟩

instance : Inhabited Val := ⟨Val.none⟩

/-- Python truthiness for the modelled values. -/
def Val.truthy : Val → Bool
  | Val.none => false
  | Val.bool b => b
  | Val.int n => n != 0
  | Val.str s => s != ""
  | Val.tuple l => !l.isEmpty
  | Val.list l => !l.isEmpty
  | Val.dict d => !d.isEmpty
  | Val.broker _ => true

/-- Python `is None` test. -/
def Val.isNone : Val → Bool
  | Val.none => true
  | _ => false

/-- A Python dictionary with string keys, modelled as an association list in
which the first binding of a key is its value. -/
abbrev Dict := List (String × Val)

/-- Dictionary lookup: `d.get(k)` / `d[k]` when present. -/
def getD? (d : Dict) (k : String) : Option Val :=
  match d with
  | [] => Option.none
  | (k', v) :: rest => if k' = k then some v else getD? rest k

/-- Removal of every binding of a key, as `dict.pop` leaves the dictionary. -/
def delKey (d : Dict) (k : String) : Dict :=
  d.filter (fun p => p.1 ≠ k)

/-- Python `d.pop(k, dflt)`: the popped value (or the default) together with
the dictionary after removal of the key. -/
def popD (d : Dict) (k : String) (dflt : Val) : Val × Dict :=
  ((getD? d k).getD dflt, delKey d k)

/-- Python `d[k] = v`, lookup-equivalent model of in-place assignment. -/
def setKey (d : Dict) (k : String) (v : Val) : Dict :=
  (k, v) :: delKey d k

/-- A finished task record, as stored by the external worker in the cache or
in the durable store (spec section 3, "Task Result Record").  The worker and
the stores are external to `tasks.py`; the fields are the ones `tasks.py`
reads back (`fetch_cached`, `fetch_group_cached`, `result_group_cached`). -/
structure TaskRec where
  id : String := ""
  name : String := ""
  func : Val := Val.none
  hook : Option Val := Option.none
  args : List Val := []
  kwargs : Dict := []
  started : Nat := 0
  stopped : Nat := 0
  result : Val := Val.none
  group : Option Val := Option.none
  success : Bool := true

instance : Inhabited TaskRec := ⟨{}⟩

/-- The task package built by `async` (tasks.py lines 36-44): mandatory
fields plus the optional fields that are present only when their extracted
option value is not `None`. -/
structure TaskPackage where
  id : String
  name : String
  func : Val
  args : List Val
  kwargs : Dict
  started : Nat
  hook : Option Val := Option.none
  group : Option Val := Option.none
  save : Option Val := Option.none
  sync : Option Val := Option.none
  cached : Option Val := Option.none
  iter_count : Option Val := Option.none
  iter_cached : Option Val := Option.none
  chain : Option Val := Option.none

/-- A codec-signed payload (external `signing.SignedPackage`): the codec is
external to this file, so signing is modelled as an opaque wrapper whose
round trip is the identity. -/
structure Signed (α : Type) where
  payload : α

namespace SignedPackage

/-- Model of `signing.SignedPackage.dumps`. -/
def dumps {α : Type} (a : α) : Signed α := ⟨a⟩

/-- Model of `signing.SignedPackage.loads`. -/
def loads {α : Type} (p : Signed α) : α := p.payload

end SignedPackage

/-- The option set popped by `async` (tasks.py lines 23-30), with the
per-call values after extraction. -/
structure Opts where
  hook : Val
  group : Val
  save : Val
  sync : Val
  cached : Val
  iter_count : Val
  iter_cached : Val
  chain : Val

/-- Lines 23-32 of `async`: pop the recognised options out of the options
dictionary, each falling back to its default (`None`, except `cached` which
defaults to the process-wide `Conf.CACHED`). -/
def extract_opts (options : Dict) (confCached : Val) : Opts × Dict :=
  let p1 := popD options "hook" Val.none
  let p2 := popD p1.2 "group" Val.none
  let p3 := popD p2.2 "save" Val.none
  let p4 := popD p3.2 "sync" Val.none
  let p5 := popD p4.2 "cached" confCached
  let p6 := popD p5.2 "iter_count" Val.none
  let p7 := popD p6.2 "iter_cached" Val.none
  let p8 := popD p7.2 "chain" Val.none
  ({ hook := p1.1, group := p2.1, save := p3.1, sync := p4.1, cached := p5.1,
     iter_count := p6.1, iter_cached := p7.1, chain := p8.1 }, p8.2)

/-- Line 43: an optional field enters the task package only when its value
is not `None` (`if opts[key] is not None`). -/
def asOptional (v : Val) : Option Val :=
  if v.isNone then Option.none else some v

/-- The default broker returned by `get_broker()` (external). -/
def get_broker : Val := Val.broker 0

/-- Outcome of the one-shot synchronous simulation `_sync`. -/
structure SyncOut where
  taskRun : TaskPackage
  executedResult : Val
  ret : String

/-- Model of `_sync` (tasks.py lines 563-573): load the signed package, run
it through the one-shot worker/monitor simulation, and return `task['id']`.
Modelled from the spec: `cluster.worker` / `cluster.monitor` are outside this
repository's sources; spec section 6 says the worker executes the package's
function on its arguments and records the result, which is modelled by the
oracle `funcSem`.  The returned value, `task['id']`, is line 573 of the
source itself. -/
def _sync (funcSem : Val → List Val → Dict → Val) (pack : Signed TaskPackage) : SyncOut :=
  let task := SignedPackage.loads pack
  { taskRun := task
    executedResult := funcSem task.func task.args task.kwargs
    ret := task.id }

/-- Observable outcome of one `async` call: the returned value, the built
task package, the payloads enqueued on the broker, and the synchronous
simulation run (if any). -/
structure AsyncOut where
  ret : String
  task : TaskPackage
  enqueued : List (Signed TaskPackage)
  syncRun : Option SyncOut
  brokerUsed : Val

instance : Inhabited TaskPackage :=
  ⟨{ id := "", name := "", func := Val.none, args := [], kwargs := [], started := 0 }⟩

instance : Inhabited SyncOut :=
  ⟨{ taskRun := default, executedResult := Val.none, ret := "" }⟩

instance : Inhabited AsyncOut :=
  ⟨{ ret := "", task := default, enqueued := [], syncRun := Option.none,
     brokerUsed := Val.none }⟩

/-- Lines 21-44 of `async`: pop the broker and the recognised options off
the options dictionary and assemble the task package.  `options` is the
dictionary the pops run on; `kwargsFixed` is `some kw` when `q_options` was
supplied (the callee kwargs are then the original kwargs minus the
`q_options` key, untouched by the pops) and `Option.none` when `options`
*is* the kwargs dictionary (Python aliasing: the pops then mutate the
kwargs that end up in the package). -/
def build_task (func : Val) (args : List Val) (options : Dict) (kwargsFixed : Option Dict)
    (confCached : Val) (now : Nat) (tag : String × String) : TaskPackage :=
  let pb := popD options "broker" get_broker
  let eo := extract_opts pb.2 confCached
  let kw := kwargsFixed.getD eo.2
  { id := tag.2, name := tag.1, func := func, args := args, kwargs := kw, started := now,
    hook := asOptional eo.1.hook, group := asOptional eo.1.group,
    save := asOptional eo.1.save, sync := asOptional eo.1.sync,
    cached := asOptional eo.1.cached, iter_count := asOptional eo.1.iter_count,
    iter_cached := asOptional eo.1.iter_cached, chain := asOptional eo.1.chain }

/-- Body of `async` after the `q_options` aliasing decision (tasks.py lines
21-52): build and sign the package, then either run it through the one-shot
synchronous simulation (when the package's `sync` is truthy or the
process-wide flag is set, line 47) or enqueue it on the broker. -/
def async_core (funcSem : Val → List Val → Dict → Val) (func : Val) (args : List Val)
    (options : Dict) (kwargsFixed : Option Dict) (confCached : Val) (confSync : Bool)
    (now : Nat) (tag : String × String) : AsyncOut :=
  let task := build_task func args options kwargsFixed confCached now tag
  let pack := SignedPackage.dumps task
  if (task.sync.map Val.truthy).getD false || confSync then
    let s := _sync funcSem pack
    { ret := s.ret, task := task, enqueued := [], syncRun := some s,
      brokerUsed := (popD options "broker" get_broker).1 }
  else
    { ret := task.id, task := task, enqueued := [pack], syncRun := Option.none,
      brokerUsed := (popD options "broker" get_broker).1 }

/-- Model of `async` (tasks.py lines 17-52).  Line 20,
`options = kwargs.pop('q_options', kwargs)`, either selects a supplied
`q_options` dictionary (removing that key from kwargs) or aliases the kwargs
dictionary itself.  A `q_options` value that is not a dictionary makes the
subsequent `options.pop` calls raise, modelled as `Option.none`.
`tag` is the `(name, id)` pair from the external `uuid()` generator; `now`
is the submission timestamp. -/
def async (funcSem : Val → List Val → Dict → Val) (func : Val) (args : List Val)
    (kwargs : Dict) (confCached : Val) (confSync : Bool) (now : Nat)
    (tag : String × String) : Option AsyncOut :=
  match getD? kwargs "q_options" with
  | some (Val.dict qd) =>
      some (async_core funcSem func args qd (some (delKey kwargs "q_options"))
        confCached confSync now tag)
  | some _ => Option.none
  | Option.none =>
      some (async_core funcSem func args kwargs Option.none confCached confSync now tag)

/-! ### Result synchronisation: the polling loops (tasks.py lines 90-294)

Each `while True:` loop is a fuel-indexed recursion.  `n` is the iteration
index: the n-th check reads the external state through an oracle at `n`, and
`elapsed n` is the value of `(time.time() - start) * 1000` at the n-th
timeout test.  A loop that exits at iteration `n` has slept exactly `n`
times.  `Option.none` as the overall value means the loop is still running
after `fuel` iterations. -/

/-- The timeout test shared by the polling loops, Python chained comparison
`(time.time() - start) * 1000 >= wait >= 0`. -/
def timed_out (elapsedMs : Nat) (wait : Int) : Prop :=
  (elapsedMs : Int) ≥ wait ∧ wait ≥ 0

instance (e : Nat) (w : Int) : Decidable (timed_out e w) :=
  inferInstanceAs (Decidable ((e : Int) ≥ w ∧ w ≥ 0))

/-- Lines 104-111: the polling loop of `result`.  `store n` models
`Task.get_result(task_id)` at the n-th check (`Val.none` when absent, and
the loop keeps only truthy values, exactly like `if r:`). -/
def result_loop (store : Nat → Val) (elapsed : Nat → Nat) (wait : Int) :
    Nat → Nat → Option (Val × Nat)
  | _, 0 => Option.none
  | n, fuel + 1 =>
    let r := store n
    if r.truthy then some (r, n)
    else if timed_out (elapsed n) wait then some (Val.none, n)
    else result_loop store elapsed wait (n + 1) fuel

/-- Lines 114-127, `result_cached`: poll `broker.cache.get(list_key:task_id)`
(`cache n = Option.none` when the key is absent) and return the loaded
package's `result` field. -/
def result_cached_loop (cache : Nat → Option TaskRec) (elapsed : Nat → Nat) (wait : Int) :
    Nat → Nat → Option (Val × Nat)
  | _, 0 => Option.none
  | n, fuel + 1 =>
    match cache n with
    | some pack => some (pack.result, n)
    | Option.none =>
      if timed_out (elapsed n) wait then some (Val.none, n)
      else result_cached_loop cache elapsed wait (n + 1) fuel

/-- `result_cached` (tasks.py lines 114-127). -/
def result_cached (cache : Nat → Option TaskRec) (elapsed : Nat → Nat) (wait : Int)
    (fuel : Nat) : Option (Val × Nat) :=
  result_cached_loop cache elapsed wait 0 fuel

/-- `result` (tasks.py lines 90-111), with the `cached` dispatch of line 102. -/
def result (store : Nat → Val) (cache : Nat → Option TaskRec) (elapsed : Nat → Nat)
    (wait : Int) (cached : Bool) (fuel : Nat) : Option (Val × Nat) :=
  if cached then result_cached cache elapsed wait fuel
  else result_loop store elapsed wait 0 fuel

/-- Lines 197-204: the polling loop of `fetch`.  `task_at n` models
`Task.get_task(task_id)` at the n-th check. -/
def fetch_loop (task_at : Nat → Option TaskRec) (elapsed : Nat → Nat) (wait : Int) :
    Nat → Nat → Option (Option TaskRec × Nat)
  | _, 0 => Option.none
  | n, fuel + 1 =>
    match task_at n with
    | some t => some (some t, n)
    | Option.none =>
      if timed_out (elapsed n) wait then some (Option.none, n)
      else fetch_loop task_at elapsed wait (n + 1) fuel

/-- Lines 207-231, `fetch_cached`: poll the cache and rebuild a `Task` from
the loaded package's fields (lines 218-227; note the source copies every
field except `group`). -/
def fetch_cached_loop (cache : Nat → Option TaskRec) (elapsed : Nat → Nat) (wait : Int) :
    Nat → Nat → Option (Option TaskRec × Nat)
  | _, 0 => Option.none
  | n, fuel + 1 =>
    match cache n with
    | some task =>
      some (some { id := task.id, name := task.name, func := task.func, hook := task.hook,
                   args := task.args, kwargs := task.kwargs, started := task.started,
                   stopped := task.stopped, result := task.result,
                   success := task.success }, n)
    | Option.none =>
      if timed_out (elapsed n) wait then some (Option.none, n)
      else fetch_cached_loop cache elapsed wait (n + 1) fuel

/-- `fetch_cached` (tasks.py lines 207-231). -/
def fetch_cached (cache : Nat → Option TaskRec) (elapsed : Nat → Nat) (wait : Int)
    (fuel : Nat) : Option (Option TaskRec × Nat) :=
  fetch_cached_loop cache elapsed wait 0 fuel

/-- `fetch` (tasks.py lines 183-204), with the `cached` dispatch of line 195. -/
def fetch (task_at : Nat → Option TaskRec) (cache : Nat → Option TaskRec)
    (elapsed : Nat → Nat) (wait : Int) (cached : Bool) (fuel : Nat) :
    Option (Option TaskRec × Nat) :=
  if cached then fetch_cached cache elapsed wait fuel
  else fetch_loop task_at elapsed wait 0 fuel

/-- Count of failed members, the loop of lines 322-326. -/
def count_failures (task_of : String → TaskRec) : List String → Nat
  | [] => 0
  | k :: ks => (if (task_of k).success then 0 else 1) + count_failures task_of ks

/-- `count_group_cached` (tasks.py lines 312-327): length of the group key
list (or the failure count), `Option.none` (Python falls off the end,
returning `None`) when the key list is absent or empty. -/
def count_group_cached (group_list : List String) (task_of : String → TaskRec)
    (failures : Bool) : Option Int :=
  if !group_list.isEmpty then
    if !failures then some (group_list.length : Int)
    else some ((count_failures task_of group_list : Nat) : Int)
  else Option.none

/-- `count_group` (tasks.py lines 297-309); `store_count` models
`Task.get_group_count(group_id, failures)` (external durable store). -/
def count_group (store_count : Option Int) (group_list : List String)
    (task_of : String → TaskRec) (failures : Bool) (cached : Bool) : Option Int :=
  if cached then count_group_cached group_list task_of failures
  else store_count

/-- The count-constrained pre-wait loop with break condition
`count_at n == count or wait and elapsed >= wait >= 0`
(tasks.py lines 143-147, 246-250 and 267-271; Python `wait and ...` is falsy
when `wait == 0`).  Returns the iteration index at which it broke, from
which the main loop continues. -/
def count_loop (count_at : Nat → Option Int) (count : Int) (elapsed : Nat → Nat)
    (wait : Int) : Nat → Nat → Option Nat
  | _, 0 => Option.none
  | n, fuel + 1 =>
    if count_at n = some count ∨ (wait ≠ 0 ∧ timed_out (elapsed n) wait) then some n
    else count_loop count_at count elapsed wait (n + 1) fuel

/-- The count pre-wait loop of `result_group_cached` (tasks.py lines
164-168), whose timeout comparison is `... >= wait > 0` rather than
`... >= wait >= 0`. -/
def count_loop_pos (count_at : Nat → Option Int) (count : Int) (elapsed : Nat → Nat)
    (wait : Int) : Nat → Nat → Option Nat
  | _, 0 => Option.none
  | n, fuel + 1 =>
    if count_at n = some count ∨ (wait ≠ 0 ∧ ((elapsed n : Int) ≥ wait ∧ wait > 0)) then some n
    else count_loop_pos count_at count elapsed wait (n + 1) fuel

/-- Lines 148-154: the main loop of `result_group`.  `group_at n` models
`Task.get_result_group(group_id, failures)` at the n-th check (an empty
list is falsy, like `if r:`). -/
def result_group_loop (group_at : Nat → List Val) (elapsed : Nat → Nat) (wait : Int) :
    Nat → Nat → Option (Option (List Val) × Nat)
  | _, 0 => Option.none
  | n, fuel + 1 =>
    let r := group_at n
    if !r.isEmpty then some (some r, n)
    else if timed_out (elapsed n) wait then some (Option.none, n)
    else result_group_loop group_at elapsed wait (n + 1) fuel

/-- Lines 172-177: collect the `result` of every group member whose record
is a success (or every member when `failures` is set). -/
def collect_results (task_of : String → TaskRec) (failures : Bool) : List String → List Val
  | [] => []
  | k :: ks =>
    let task := task_of k
    if task.success || failures then task.result :: collect_results task_of failures ks
    else collect_results task_of failures ks

/-- Lines 169-180: the main loop of `result_group_cached`.  `group_list n`
models the cached group key list at the n-th check and `task_of k` the
loaded member record behind cache key `k`. -/
def result_group_cached_loop (group_list : Nat → List String) (task_of : String → TaskRec)
    (failures : Bool) (elapsed : Nat → Nat) (wait : Int) :
    Nat → Nat → Option (Option (List Val) × Nat)
  | _, 0 => Option.none
  | n, fuel + 1 =>
    let gl := group_list n
    if !gl.isEmpty then some (some (collect_results task_of failures gl), n)
    else if timed_out (elapsed n) wait then some (Option.none, n)
    else result_group_cached_loop group_list task_of failures elapsed wait (n + 1) fuel

/-- `result_group_cached` (tasks.py lines 157-180): the count pre-wait loop
(entered only when `count` is truthy, i.e. neither `None` nor `0`; its
count source is `count_group_cached(group_id)` with default
`failures=False`), then the main loop. -/
def result_group_cached (group_list : Nat → List String) (task_of : String → TaskRec)
    (failures : Bool) (elapsed : Nat → Nat) (wait : Int) (count : Option Int)
    (fuel : Nat) : Option (Option (List Val) × Nat) :=
  match count with
  | some c =>
    if c ≠ 0 then
      match count_loop_pos (fun n => count_group_cached (group_list n) task_of false) c
          elapsed wait 0 fuel with
      | Option.none => Option.none
      | some k => result_group_cached_loop group_list task_of failures elapsed wait k fuel
    else result_group_cached_loop group_list task_of failures elapsed wait 0 fuel
  | Option.none => result_group_cached_loop group_list task_of failures elapsed wait 0 fuel

/-- `result_group` (tasks.py lines 130-154): `cached` dispatch (line 140),
then for the store-backed path the count pre-wait loop (lines 143-147,
entered only when `count` is truthy; `count_at` models `count_group`
there) followed by the main loop. -/
def result_group (group_at : Nat → List Val) (count_at : Nat → Option Int)
    (group_list : Nat → List String) (task_of : String → TaskRec)
    (failures : Bool) (elapsed : Nat → Nat) (wait : Int) (count : Option Int)
    (cached : Bool) (fuel : Nat) : Option (Option (List Val) × Nat) :=
  if cached then result_group_cached group_list task_of failures elapsed wait count fuel
  else
    match count with
    | some c =>
      if c ≠ 0 then
        match count_loop count_at c elapsed wait 0 fuel with
        | Option.none => Option.none
        | some k => result_group_loop group_at elapsed wait k fuel
      else result_group_loop group_at elapsed wait 0 fuel
    | Option.none => result_group_loop group_at elapsed wait 0 fuel

/-- Lines 251-257: the main loop of `fetch_group`.  `gtasks n` models
`Task.get_task_group(group_id, failures)` at the n-th check. -/
def fetch_group_loop (gtasks : Nat → List TaskRec) (elapsed : Nat → Nat) (wait : Int) :
    Nat → Nat → Option (Option (List TaskRec) × Nat)
  | _, 0 => Option.none
  | n, fuel + 1 =>
    let r := gtasks n
    if !r.isEmpty then some (some r, n)
    else if timed_out (elapsed n) wait then some (Option.none, n)
    else fetch_group_loop gtasks elapsed wait (n + 1) fuel

/-- Lines 275-290: rebuild a `Task` for every kept member record (the source
copies every modelled field, including `group`). -/
def collect_tasks (task_of : String → TaskRec) (failures : Bool) : List String → List TaskRec
  | [] => []
  | k :: ks =>
    let task := task_of k
    if task.success || failures then
      ({ id := task.id, name := task.name, func := task.func, hook := task.hook,
         args := task.args, kwargs := task.kwargs, started := task.started,
         stopped := task.stopped, result := task.result, group := task.group,
         success := task.success } : TaskRec) :: collect_tasks task_of failures ks
    else collect_tasks task_of failures ks

/-- Lines 272-294: the main loop of `fetch_group_cached`. -/
def fetch_group_cached_loop (group_list : Nat → List String) (task_of : String → TaskRec)
    (failures : Bool) (elapsed : Nat → Nat) (wait : Int) :
    Nat → Nat → Option (Option (List TaskRec) × Nat)
  | _, 0 => Option.none
  | n, fuel + 1 =>
    let gl := group_list n
    if !gl.isEmpty then some (some (collect_tasks task_of failures gl), n)
    else if timed_out (elapsed n) wait then some (Option.none, n)
    else fetch_group_cached_loop group_list task_of failures elapsed wait (n + 1) fuel

/-- `fetch_group_cached` (tasks.py lines 260-294): count pre-wait loop
(lines 267-271, the `>= wait >= 0` form, count source
`count_group_cached(group_id)` with default `failures=False`), then the
main loop. -/
def fetch_group_cached (group_list : Nat → List String) (task_of : String → TaskRec)
    (failures : Bool) (elapsed : Nat → Nat) (wait : Int) (count : Option Int)
    (fuel : Nat) : Option (Option (List TaskRec) × Nat) :=
  match count with
  | some c =>
    if c ≠ 0 then
      match count_loop (fun n => count_group_cached (group_list n) task_of false) c
          elapsed wait 0 fuel with
      | Option.none => Option.none
      | some k => fetch_group_cached_loop group_list task_of failures elapsed wait k fuel
    else fetch_group_cached_loop group_list task_of failures elapsed wait 0 fuel
  | Option.none => fetch_group_cached_loop group_list task_of failures elapsed wait 0 fuel

/-- `fetch_group` (tasks.py lines 234-257): `cached` dispatch (line 243),
then the count pre-wait loop (lines 246-250) and the main loop. -/
def fetch_group (gtasks : Nat → List TaskRec) (count_at : Nat → Option Int)
    (group_list : Nat → List String) (task_of : String → TaskRec)
    (failures : Bool) (elapsed : Nat → Nat) (wait : Int) (count : Option Int)
    (cached : Bool) (fuel : Nat) : Option (Option (List TaskRec) × Nat) :=
  if cached then fetch_group_cached group_list task_of failures elapsed wait count fuel
  else
    match count with
    | some c =>
      if c ≠ 0 then
        match count_loop count_at c elapsed wait 0 fuel with
        | Option.none => Option.none
        | some k => fetch_group_loop gtasks elapsed wait k fuel
      else fetch_group_loop gtasks elapsed wait 0 fuel
    | Option.none => fetch_group_loop gtasks elapsed wait 0 fuel

/-- The cache operations performed by `delete_group_cached`. -/
structure DeleteGroupOps where
  deleteManyArg : Option (List String)
  deletedKey : String

/-- `delete_group_cached` (tasks.py lines 345-354): read the group key list
and pass the value obtained — whatever it is, including `None` — straight to
`cache.delete_many`, then delete the index key itself.  `cache_get` models
`broker.cache.get` (`Option.none` for a missing key). -/
def delete_group_cached (cache_get : String → Option (List String)) (list_key : String)
    (group_id : String) : DeleteGroupOps :=
  let group_key := list_key ++ ":" ++ group_id ++ ":keys"
  { deleteManyArg := cache_get group_key, deletedKey := group_key }

/-! ### Group/chain coordinator (tasks.py lines 380-427) -/

/-- The per-element normalisation of `async_iter` (tasks.py lines 399-400):
`if type(args) is not tuple: args = (args,)` — only a tuple is splatted as
the argument sequence; every other value, sequence or not, becomes a
one-element argument list. -/
def normalize_args : Val → List Val
  | Val.tuple l => l
  | v => [v]

/-- The normalisation asserted by the claim, stated in the claim's own
words for comparison with the source's `normalize_args`: a value that is
*already a sequence* (tuple or list) is passed through as that argument
sequence, while a single non-sequence value becomes a one-element
sequence. -/
def claimed_normalize : Val → List Val
  | Val.tuple l => l
  | Val.list l => l
  | v => [v]

/-- The `for args in args_iter:` loop of `async_iter` (lines 398-401),
submitting one task per element; `tags i` is the `uuid()` pair drawn by the
i-th inner `async` call. -/
def async_iter_go (funcSem : Val → List Val → Dict → Val) (func : Val) (options : Dict)
    (confCached : Val) (confSync : Bool) (now : Nat) (tags : Nat → String × String) :
    List Val → Nat → Option (List AsyncOut)
  | [], _ => some []
  | a :: rest, i =>
    match async funcSem func (normalize_args a) options confCached confSync now (tags i) with
    | Option.none => Option.none
    | some o =>
      (async_iter_go funcSem func options confCached confSync now tags rest (i + 1)).map
        (fun os => o :: os)

/-- Observable outcome of `async_iter`: the returned group id, the cache
write of the argument snapshot, and the inner submissions in order. -/
structure IterOut where
  ret : String
  cacheSetKey : String
  cacheSetVal : Signed (List Val)
  subs : List AsyncOut

instance : Inhabited IterOut :=
  ⟨{ ret := "", cacheSetKey := "", cacheSetVal := ⟨[]⟩, subs := [] }⟩

/-- Lines 388-394 of `async_iter`: clean up the option dictionary — pop the
hook, fix the broker, set the fresh group id and the fan-out cardinality,
remember a truthy caller `cached` preference as `iter_cached`, and force
`cached = True` for the fan-out submissions. -/
def iter_options (options0 : Dict) (gid : String) (iter_count : Int) : Dict :=
  let options1 := delKey options0 "hook"
  let options2 := setKey options1 "broker" ((getD? options1 "broker").getD get_broker)
  let options3 := setKey options2 "group" (Val.str gid)
  let options4 := setKey options3 "iter_count" (Val.int iter_count)
  let options5 :=
    if ((getD? options4 "cached").getD Val.none).truthy then
      setKey options4 "iter_cached" ((getD? options4 "cached").getD Val.none)
    else options4
  setKey options5 "cached" (Val.bool true)

/-- Model of `async_iter` (tasks.py lines 380-402).  `gid` is the fresh
group id from `uuid()[1]`; `list_key` is the broker's namespace prefix.
Note line 387 uses `kwargs.get('q_options', kwargs)` (a non-popping read),
and each inner `async(func, *args, **options)` call receives its own copy
of the option dictionary built on lines 388-394. -/
def async_iter (funcSem : Val → List Val → Dict → Val) (func : Val) (args_iter : List Val)
    (kwargs : Dict) (confCached : Val) (confSync : Bool) (now : Nat) (list_key : String)
    (gid : String) (tags : Nat → String × String) : Option IterOut :=
  let iter_count : Int := (args_iter.length : Int)
  let options? : Option Dict :=
    match getD? kwargs "q_options" with
    | some (Val.dict qd) => some qd
    | some _ => Option.none
    | Option.none => some kwargs
  match options? with
  | Option.none => Option.none
  | some options0 =>
    match async_iter_go funcSem func (iter_options options0 gid iter_count) confCached
        confSync now tags args_iter 0 with
    | Option.none => Option.none
    | some subs =>
      some { ret := gid,
             cacheSetKey := list_key ++ ":" ++ gid ++ ":args",
             cacheSetVal := SignedPackage.dumps args_iter,
             subs := subs }

/-- Observable outcome of `async_chain`: the returned group id, the final
state of the caller-supplied steps list (mutated by `chain.pop(0)`), and
the single submission performed. -/
structure ChainOut where
  group : String
  callerChain : List Val
  sub : AsyncOut

instance : Inhabited ChainOut :=
  ⟨{ group := "", callerChain := [], sub := default }⟩

/-- Lines 412-420 of `async_chain`: normalise the popped step to a tuple
(`if type(task) is not tuple: task = (task,)`) and read off the function,
the positional arguments (`task[1]`, splatted — a non-sequence there makes
`async(task[0], *args, ...)` raise, modelled as `Option.none`) and the
keyword arguments (`task[2]`, which must be a dictionary). -/
def parse_step (task0 : Val) : Option (Val × List Val × Dict) :=
  let task : List Val :=
    match task0 with
    | Val.tuple l => l
    | t => [t]
  match task with
  | [] => Option.none
  | f :: targs =>
    match targs with
    | [] => some (f, [], [])
    | a :: rest2 =>
      let args? : Option (List Val) :=
        match a with
        | Val.tuple l => some l
        | Val.list l => some l
        | _ => Option.none
      let kw? : Option Dict :=
        match rest2.head? with
        | Option.none => some []
        | some (Val.dict d) => some d
        | some _ => Option.none
      match args?, kw? with
      | some args, some kw => some (f, args, kw)
      | _, _ => Option.none

/-- Lines 415-427 of `async_chain`, for the popped first step `task0` and
the remaining steps `rest`: attach `chain` (the remaining steps), `group`,
`cached`, `sync` and the broker to the first task's kwargs (lines 421-425)
and submit that first step alone through `async`. -/
def async_chain_step (funcSem : Val → List Val → Dict → Val) (task0 : Val)
    (rest : List Val) (group : String) (cached : Val) (sync : Val) (brokerArg : Val)
    (confCached : Val) (confSync : Bool) (now : Nat) (tag : String × String) :
    Option ChainOut :=
  match parse_step task0 with
  | Option.none => Option.none
  | some (f, args, kw) =>
    let kw1 := setKey kw "chain" (Val.list rest)
    let kw2 := setKey kw1 "group" (Val.str group)
    let kw3 := setKey kw2 "cached" cached
    let kw4 := setKey kw3 "sync" sync
    let kw5 := setKey kw4 "broker" (if brokerArg.truthy then brokerArg else get_broker)
    match async funcSem f args kw5 confCached confSync now tag with
    | Option.none => Option.none
    | some o => some { group := group, callerChain := rest, sub := o }

/-- Model of `async_chain` (tasks.py lines 405-427).  `chain.pop(0)`
mutates the caller's list in place (its final state is `callerChain`);
an empty chain raises `IndexError`, modelled as `Option.none`.  A falsy
`group` (Python `None` or the empty string, both falsy, line 410) is
replaced by the fresh id `gidFresh` from `uuid()[1]`. -/
def async_chain (funcSem : Val → List Val → Dict → Val) (chain : List Val) (group : String)
    (cached : Val) (sync : Val) (brokerArg : Val) (confCached : Val) (confSync : Bool)
    (now : Nat) (gidFresh : String) (tag : String × String) : Option ChainOut :=
  match chain with
  | [] => Option.none
  | task0 :: rest =>
    async_chain_step funcSem task0 rest (if group = "" then gidFresh else group) cached
      sync brokerArg confCached confSync now tag

/-! ### Composable handles (tasks.py lines 430-560) -/

/-- The mutable state of an `Iter` handle (tasks.py lines 430-443). -/
structure IterHandle where
  func : Val
  args : List Val
  kwargs : Dict
  id : String
  broker : Val
  cached : Val
  sync : Val
  started : Bool

/-- `Iter.length` (tasks.py lines 484-489). -/
def IterHandle.length (h : IterHandle) : Nat := h.args.length

/-- `Iter.append` (tasks.py lines 445-452): append the tuple of the given
positional arguments and, if the handle had already been run, reset the
`started` flag; returns the new handle and the new length. -/
def IterHandle.append (h : IterHandle) (newArgs : List Val) : IterHandle × Nat :=
  let h1 := { h with args := h.args ++ [Val.tuple newArgs] }
  let h2 := if h.started then { h1 with started := false } else h1
  (h2, h2.length)

/-- `Iter.run` (tasks.py lines 454-464): write `cached`, `sync` and
`broker` into the handle's own kwargs dictionary, submit through
`async_iter`, record the returned group id in `self.id` and set `started`. -/
def IterHandle.run (h : IterHandle) (funcSem : Val → List Val → Dict → Val)
    (confCached : Val) (confSync : Bool) (now : Nat) (list_key : String) (gid : String)
    (tags : Nat → String × String) : Option (IterHandle × String) :=
  let kw1 := setKey h.kwargs "cached" h.cached
  let kw2 := setKey kw1 "sync" h.sync
  let kw3 := setKey kw2 "broker" h.broker
  match async_iter funcSem h.func h.args kw3 confCached confSync now list_key gid tags with
  | Option.none => Option.none
  | some out => some ({ h with kwargs := kw3, id := out.ret, started := true }, out.ret)

/-- `Iter.result` (tasks.py lines 466-473): absent (`None`) unless
`started`; otherwise delegate to `result(self.id, wait, self.cached)`.
Outer `Option.none` means a delegated poll that has not terminated. -/
def IterHandle.result (h : IterHandle) (store : Nat → Val) (cache : Nat → Option TaskRec)
    (elapsed : Nat → Nat) (wait : Int) (fuel : Nat) : Option Val :=
  if h.started then (DjangoQ.result store cache elapsed wait h.cached.truthy fuel).map Prod.fst
  else some Val.none

/-- `Iter.fetch` (tasks.py lines 475-482): absent (`None`) unless
`started`; otherwise delegate to `fetch(self.id, wait, self.cached)`. -/
def IterHandle.fetch (h : IterHandle) (task_at : Nat → Option TaskRec)
    (cache : Nat → Option TaskRec) (elapsed : Nat → Nat) (wait : Int) (fuel : Nat) :
    Option (Option TaskRec) :=
  if h.started then (DjangoQ.fetch task_at cache elapsed wait h.cached.truthy fuel).map Prod.fst
  else some Option.none

/-- The mutable state of a `Chain` handle (tasks.py lines 492-503). -/
structure ChainHandle where
  chain : List Val
  group : String
  broker : Val
  cached : Val
  sync : Val
  started : Bool

instance : Inhabited ChainHandle :=
  ⟨{ chain := [], group := "", broker := Val.none, cached := Val.none,
     sync := Val.none, started := false }⟩

/-- `Chain.length` (tasks.py lines 555-560). -/
def ChainHandle.length (h : ChainHandle) : Nat := h.chain.length

/-- `Chain.append` (tasks.py lines 505-515): append the step, and if the
handle had already been run, call `delete_group(self.group)` (with the
process-default `cached` backend) and reset `started`.  The middle
component records the group id whose stored data that call removed
(`Option.none` when no deletion happened). -/
def ChainHandle.append (h : ChainHandle) (func : Val) (args : List Val) (kw : Dict) :
    ChainHandle × Option String × Nat :=
  let h1 := { h with chain := h.chain ++ [Val.tuple [func, Val.tuple args, Val.dict kw]] }
  if h.started then ({ h1 with started := false }, some h.group, h1.chain.length)
  else (h1, Option.none, h1.chain.length)

/-- `Chain.run` (tasks.py lines 517-525): submit a copy (`self.chain[:]`)
of the current step list through `async_chain` — so the destructive
`chain.pop(0)` of the coordinator acts on the copy and the handle's own
`chain` field keeps its value — record the returned group id, set
`started`. -/
def ChainHandle.run (h : ChainHandle) (funcSem : Val → List Val → Dict → Val)
    (confCached : Val) (confSync : Bool) (now : Nat) (gidFresh : String)
    (tag : String × String) : Option (ChainHandle × String × ChainOut) :=
  match async_chain funcSem h.chain h.group h.cached h.sync h.broker confCached confSync
      now gidFresh tag with
  | Option.none => Option.none
  | some out => some ({ h with group := out.group, started := true }, out.group, out)

/-- `Chain.result` (tasks.py lines 527-534): absent (`None`) unless
`started`; otherwise `result_group(self.group, wait=wait,
count=self.length(), cached=self.cached)` with default `failures=False`. -/
def ChainHandle.result (h : ChainHandle) (group_at : Nat → List Val)
    (count_at : Nat → Option Int) (group_list : Nat → List String)
    (task_of : String → TaskRec) (elapsed : Nat → Nat) (wait : Int) (fuel : Nat) :
    Option (Option (List Val)) :=
  if h.started then
    (result_group group_at count_at group_list task_of false elapsed wait
        (some (h.length : Int)) h.cached.truthy fuel).map Prod.fst
  else some Option.none

/-- `Chain.fetch` (tasks.py lines 536-544): absent (`None`) unless
`started`; otherwise `fetch_group(self.group, failures, wait,
count=self.length(), cached=self.cached)`. -/
def ChainHandle.fetch (h : ChainHandle) (gtasks : Nat → List TaskRec)
    (count_at : Nat → Option Int) (group_list : Nat → List String)
    (task_of : String → TaskRec) (failures : Bool) (elapsed : Nat → Nat) (wait : Int)
    (fuel : Nat) : Option (Option (List TaskRec)) :=
  if h.started then
    (fetch_group gtasks count_at group_list task_of failures elapsed wait
        (some (h.length : Int)) h.cached.truthy fuel).map Prod.fst
  else some Option.none

/-- `Chain.current` (tasks.py lines 546-553): `None` when never started,
otherwise `count_group(self.group, cached=self.cached)`. -/
def ChainHandle.current (h : ChainHandle) (store_count : Option Int)
    (group_list : List String) (task_of : String → TaskRec) : Option Int :=
  if !h.started then Option.none
  else count_group store_count group_list task_of false h.cached.truthy

/-! ### Concrete example states used by the witnesses -/

/-- A never-run `Iter` handle. -/
def iter_idle_example : IterHandle :=
  { func := Val.none, args := [], kwargs := [], id := "", broker := get_broker,
    cached := Val.bool false, sync := Val.bool false, started := false }

/-- A never-run `Chain` handle. -/
def chain_idle_example : ChainHandle :=
  { chain := [], group := "g", broker := get_broker, cached := Val.bool true,
    sync := Val.bool false, started := false }

/-- An already-run `Iter` handle. -/
def iter_started_example : IterHandle :=
  { func := Val.str "f", args := [Val.tuple [Val.int 1]], kwargs := [], id := "gi",
    broker := get_broker, cached := Val.bool false, sync := Val.bool false,
    started := true }

/-- An already-run `Chain` handle. -/
def chain_started_example : ChainHandle :=
  { chain := [Val.tuple [Val.str "f", Val.tuple [], Val.dict []]], group := "gc",
    broker := get_broker, cached := Val.bool false, sync := Val.bool false,
    started := true }

/-- A never-run `Chain` handle holding two steps. -/
def chain_two_steps_example : ChainHandle :=
  { chain := [Val.tuple [Val.str "f1", Val.tuple [], Val.dict []],
              Val.tuple [Val.str "f2", Val.tuple [], Val.dict []]], group := "",
    broker := get_broker, cached := Val.bool false, sync := Val.bool false,
    started := false }

/-- Integer sum of the integer values of a list (auxiliary for the example
worker semantics). -/
def sumInts : List Val → Int
  | [] => 0
  | Val.int n :: rest => n + sumInts rest
  | _ :: rest => sumInts rest

/-- Example worker semantics used by the witnesses: the executed function
adds its integer positional arguments. -/
def addSem : Val → List Val → Dict → Val :=
  fun _ args _ => Val.int (sumInts args)

/-! ### Dictionary lemmas -/

theorem delKey_cons_eq (p : String × Val) (rest : Dict) (k : String) (h : p.1 = k) :
    delKey (p :: rest) k = delKey rest k := by
  simp [delKey, List.filter_cons, h]

theorem delKey_cons_ne (p : String × Val) (rest : Dict) (k : String) (h : ¬p.1 = k) :
    delKey (p :: rest) k = p :: delKey rest k := by
  simp [delKey, List.filter_cons, h]

theorem getD_delKey (d : Dict) (k k' : String) (h : k ≠ k') :
    getD? (delKey d k') k = getD? d k := by
  induction d with
  | nil => rfl
  | cons p rest ih =>
    by_cases hk : p.1 = k'
    · rw [delKey_cons_eq p rest k' hk, ih]
      have hpk : ¬p.1 = k := fun hc => h (hc.symm.trans hk)
      simp [getD?, hpk]
    · rw [delKey_cons_ne p rest k' hk]
      by_cases h2 : p.1 = k
      · simp [getD?, h2]
      · simp [getD?, h2, ih]

theorem getD_setKey (d : Dict) (k k' : String) (v : Val) :
    getD? (setKey d k' v) k = if k' = k then some v else getD? d k := by
  by_cases h : k' = k
  · simp [setKey, getD?, h]
  · have h' : k ≠ k' := fun hc => h hc.symm
    simp [setKey, getD?, h, getD_delKey d k k' h']

theorem delKey_of_getD_none (d : Dict) (k : String) (h : getD? d k = Option.none) :
    delKey d k = d := by
  induction d with
  | nil => rfl
  | cons p rest ih =>
    by_cases hk : p.1 = k
    · simp [getD?, hk] at h
    · simp only [getD?, if_neg hk] at h
      rw [delKey_cons_ne p rest k hk, ih h]

/-- Per-field characterisation of the option extraction of lines 23-32:
each recognised option is the value bound in the options dictionary, or its
default when the key is absent, independent of the pops of the other keys. -/
theorem extract_opts_spec (d : Dict) (cc : Val) :
    (extract_opts d cc).1 =
      { hook := (getD? d "hook").getD Val.none,
        group := (getD? d "group").getD Val.none,
        save := (getD? d "save").getD Val.none,
        sync := (getD? d "sync").getD Val.none,
        cached := (getD? d "cached").getD cc,
        iter_count := (getD? d "iter_count").getD Val.none,
        iter_cached := (getD? d "iter_cached").getD Val.none,
        chain := (getD? d "chain").getD Val.none } := by
  unfold extract_opts popD
  simp only []
  rw [getD_delKey _ "group" "hook" (by decide)]
  rw [getD_delKey _ "save" "group" (by decide), getD_delKey _ "save" "hook" (by decide)]
  rw [getD_delKey _ "sync" "save" (by decide), getD_delKey _ "sync" "group" (by decide),
    getD_delKey _ "sync" "hook" (by decide)]
  rw [getD_delKey _ "cached" "sync" (by decide), getD_delKey _ "cached" "save" (by decide),
    getD_delKey _ "cached" "group" (by decide), getD_delKey _ "cached" "hook" (by decide)]
  rw [getD_delKey _ "iter_count" "cached" (by decide),
    getD_delKey _ "iter_count" "sync" (by decide),
    getD_delKey _ "iter_count" "save" (by decide),
    getD_delKey _ "iter_count" "group" (by decide),
    getD_delKey _ "iter_count" "hook" (by decide)]
  rw [getD_delKey _ "iter_cached" "iter_count" (by decide),
    getD_delKey _ "iter_cached" "cached" (by decide),
    getD_delKey _ "iter_cached" "sync" (by decide),
    getD_delKey _ "iter_cached" "save" (by decide),
    getD_delKey _ "iter_cached" "group" (by decide),
    getD_delKey _ "iter_cached" "hook" (by decide)]
  rw [getD_delKey _ "chain" "iter_cached" (by decide),
    getD_delKey _ "chain" "iter_count" (by decide),
    getD_delKey _ "chain" "cached" (by decide),
    getD_delKey _ "chain" "sync" (by decide),
    getD_delKey _ "chain" "save" (by decide),
    getD_delKey _ "chain" "group" (by decide),
    getD_delKey _ "chain" "hook" (by decide)]

theorem getD_setKey_same (d : Dict) (k : String) (v : Val) :
    getD? (setKey d k v) k = some v := by
  simp [setKey, getD?]

theorem getD_setKey_other (d : Dict) (k k' : String) (v : Val) (h : k ≠ k') :
    getD? (setKey d k' v) k = getD? d k := by
  have h' : ¬k' = k := fun hc => h hc.symm
  simp [setKey, getD?, h', getD_delKey d k k' h]

/-- Per-field characterisation of `build_task`: every optional package
field is the corresponding option value looked up in the original options
dictionary (default applied when absent), independent of the pops of
`broker` and of the other option keys. -/
theorem build_task_spec (func : Val) (args : List Val) (options : Dict)
    (kwFixed : Option Dict) (cc : Val) (now : Nat) (tag : String × String) :
    build_task func args options kwFixed cc now tag =
      { id := tag.2, name := tag.1, func := func, args := args,
        kwargs := kwFixed.getD (extract_opts (delKey options "broker") cc).2,
        started := now,
        hook := asOptional ((getD? options "hook").getD Val.none),
        group := asOptional ((getD? options "group").getD Val.none),
        save := asOptional ((getD? options "save").getD Val.none),
        sync := asOptional ((getD? options "sync").getD Val.none),
        cached := asOptional ((getD? options "cached").getD cc),
        iter_count := asOptional ((getD? options "iter_count").getD Val.none),
        iter_cached := asOptional ((getD? options "iter_cached").getD Val.none),
        chain := asOptional ((getD? options "chain").getD Val.none) } := by
  unfold build_task
  simp only [popD, extract_opts_spec]
  rw [getD_delKey options "hook" "broker" (by decide),
    getD_delKey options "group" "broker" (by decide),
    getD_delKey options "save" "broker" (by decide),
    getD_delKey options "sync" "broker" (by decide),
    getD_delKey options "cached" "broker" (by decide),
    getD_delKey options "iter_count" "broker" (by decide),
    getD_delKey options "iter_cached" "broker" (by decide),
    getD_delKey options "chain" "broker" (by decide)]

/-- The task package recorded on an `async_core` outcome is `build_task`'s
package, in both the synchronous and the enqueue branch. -/
theorem async_core_task (funcSem : Val → List Val → Dict → Val) (func : Val)
    (args : List Val) (options : Dict) (kwFixed : Option Dict) (cc : Val) (cs : Bool)
    (now : Nat) (tag : String × String) :
    (async_core funcSem func args options kwFixed cc cs now tag).task
      = build_task func args options kwFixed cc now tag := by
  unfold async_core
  dsimp only
  split <;> rfl

/-- The synchronous branch of `async_core` (tasks.py lines 47-48): when the
package's `sync` is truthy or the process-wide flag is set, nothing is
enqueued, the signed package goes through the one-shot `_sync` simulation,
and the returned value is the task id. -/
theorem async_core_sync_run (funcSem : Val → List Val → Dict → Val) (func : Val)
    (args : List Val) (options : Dict) (kwFixed : Option Dict) (cc : Val) (cs : Bool)
    (now : Nat) (tag : String × String)
    (hs : (((build_task func args options kwFixed cc now tag).sync.map Val.truthy).getD
      false || cs) = true) :
    (async_core funcSem func args options kwFixed cc cs now tag).enqueued = [] ∧
    (async_core funcSem func args options kwFixed cc cs now tag).syncRun
      = some (_sync funcSem
          (SignedPackage.dumps (build_task func args options kwFixed cc now tag))) ∧
    (async_core funcSem func args options kwFixed cc cs now tag).ret
      = (build_task func args options kwFixed cc now tag).id := by
  unfold async_core
  rw [if_pos hs]
  exact ⟨rfl, rfl, rfl⟩

theorem iter_options_group (o : Dict) (gid : String) (n : Int) :
    getD? (iter_options o gid n) "group" = some (Val.str gid) := by
  unfold iter_options
  rw [getD_setKey_other _ "group" "cached" _ (by decide)]
  split
  · rw [getD_setKey_other _ "group" "iter_cached" _ (by decide),
      getD_setKey_other _ "group" "iter_count" _ (by decide), getD_setKey_same]
  · rw [getD_setKey_other _ "group" "iter_count" _ (by decide), getD_setKey_same]

theorem iter_options_iter_count (o : Dict) (gid : String) (n : Int) :
    getD? (iter_options o gid n) "iter_count" = some (Val.int n) := by
  unfold iter_options
  rw [getD_setKey_other _ "iter_count" "cached" _ (by decide)]
  split
  · rw [getD_setKey_other _ "iter_count" "iter_cached" _ (by decide), getD_setKey_same]
  · rw [getD_setKey_same]

theorem iter_options_qopts (o : Dict) (gid : String) (n : Int)
    (hq : getD? o "q_options" = Option.none) :
    getD? (iter_options o gid n) "q_options" = Option.none := by
  unfold iter_options
  rw [getD_setKey_other _ "q_options" "cached" _ (by decide)]
  split
  · rw [getD_setKey_other _ "q_options" "iter_cached" _ (by decide),
      getD_setKey_other _ "q_options" "iter_count" _ (by decide),
      getD_setKey_other _ "q_options" "group" _ (by decide),
      getD_setKey_other _ "q_options" "broker" _ (by decide),
      getD_delKey _ "q_options" "hook" (by decide)]
    exact hq
  · rw [getD_setKey_other _ "q_options" "iter_count" _ (by decide),
      getD_setKey_other _ "q_options" "group" _ (by decide),
      getD_setKey_other _ "q_options" "broker" _ (by decide),
      getD_delKey _ "q_options" "hook" (by decide)]
    exact hq

/-- When the options dictionary carries no `q_options` key, `async` takes
the aliased branch and succeeds, building the task from that dictionary. -/
theorem async_no_qopts (funcSem : Val → List Val → Dict → Val) (func : Val)
    (args : List Val) (options : Dict) (cc : Val) (cs : Bool) (now : Nat)
    (tag : String × String) (hq : getD? options "q_options" = Option.none) :
    async funcSem func args options cc cs now tag
      = some (async_core funcSem func args options Option.none cc cs now tag) := by
  unfold async
  rw [hq]

/-- The fan-out loop of `async_iter` submits one task per element of the
argument list: each carries the `group` and `iter_count` bound in the
option dictionary, and its positional arguments are the element's
normalisation. -/
theorem async_iter_go_spec (funcSem : Val → List Val → Dict → Val) (func : Val)
    (options : Dict) (cc : Val) (cs : Bool) (now : Nat) (tags : Nat → String × String)
    (gv iv : Val)
    (hq : getD? options "q_options" = Option.none)
    (hg : getD? options "group" = some gv)
    (hi : getD? options "iter_count" = some iv) :
    ∀ (l : List Val) (i : Nat), ∃ subs,
      async_iter_go funcSem func options cc cs now tags l i = some subs ∧
      subs.map (fun o => o.task.group) = List.replicate l.length (asOptional gv) ∧
      subs.map (fun o => o.task.iter_count) = List.replicate l.length (asOptional iv) ∧
      subs.map (fun o => o.task.args) = l.map normalize_args := by
  intro l
  induction l with
  | nil => intro i; exact ⟨[], rfl, rfl, rfl, rfl⟩
  | cons a rest ih =>
    intro i
    obtain ⟨subs, hs, hg1, hi1, ha1⟩ := ih (i + 1)
    refine ⟨async_core funcSem func (normalize_args a) options Option.none cc cs now
      (tags i) :: subs, ?_, ?_, ?_, ?_⟩
    · simp only [async_iter_go,
        async_no_qopts funcSem func (normalize_args a) options cc cs now (tags i) hq, hs]
      rfl
    · simp only [List.map_cons, List.length_cons, List.replicate_succ, hg1,
        async_core_task, build_task_spec, hg, Option.getD_some]
    · simp only [List.map_cons, List.length_cons, List.replicate_succ, hi1,
        async_core_task, build_task_spec, hi, Option.getD_some]
    · simp only [List.map_cons, ha1, async_core_task, build_task_spec]

/-! ### Poll-loop lemmas

For a negative `wait` the timeout test `elapsed >= wait >= 0` is never true,
so no loop can exit through its timeout branch; each main loop can exit only
by finding a present value, and the count pre-wait loops only by matching
the count.  For `wait <= 0` the count pre-wait loops cannot break on
timeout either (`wait and ...` is falsy at `wait == 0`). -/

theorem not_timed_out_of_neg (e : Nat) (wait : Int) (hw : wait < 0) :
    ¬timed_out e wait :=
  fun ht => absurd ht.2 (not_le.mpr hw)

theorem result_loop_found (store : Nat → Val) (elapsed : Nat → Nat) (wait : Int)
    (hw : wait < 0) :
    ∀ fuel m p, result_loop store elapsed wait m fuel = some p → p.1.truthy = true := by
  intro fuel
  induction fuel with
  | zero => intro m p h; exact Option.noConfusion h
  | succ fuel ih =>
    intro m p h
    simp only [result_loop] at h
    by_cases h1 : (store m).truthy = true
    · rw [if_pos h1] at h
      injection h with h2
      rw [← h2]
      exact h1
    · rw [if_neg h1, if_neg (not_timed_out_of_neg (elapsed m) wait hw)] at h
      exact ih (m + 1) p h

theorem result_cached_loop_found (cache : Nat → Option TaskRec) (elapsed : Nat → Nat)
    (wait : Int) (hw : wait < 0) :
    ∀ fuel m p, result_cached_loop cache elapsed wait m fuel = some p →
      (cache p.2).isSome = true := by
  intro fuel
  induction fuel with
  | zero => intro m p h; exact Option.noConfusion h
  | succ fuel ih =>
    intro m p h
    simp only [result_cached_loop] at h
    cases hc : cache m with
    | some pack =>
      rw [hc] at h
      injection h with h2
      rw [← h2]
      simp [hc]
    | none =>
      rw [hc, if_neg (not_timed_out_of_neg (elapsed m) wait hw)] at h
      exact ih (m + 1) p h

theorem fetch_loop_found (task_at : Nat → Option TaskRec) (elapsed : Nat → Nat)
    (wait : Int) (hw : wait < 0) :
    ∀ fuel m p, fetch_loop task_at elapsed wait m fuel = some p → p.1.isSome = true := by
  intro fuel
  induction fuel with
  | zero => intro m p h; exact Option.noConfusion h
  | succ fuel ih =>
    intro m p h
    simp only [fetch_loop] at h
    cases hc : task_at m with
    | some t =>
      rw [hc] at h
      injection h with h2
      rw [← h2]
      rfl
    | none =>
      rw [hc, if_neg (not_timed_out_of_neg (elapsed m) wait hw)] at h
      exact ih (m + 1) p h

theorem fetch_cached_loop_found (cache : Nat → Option TaskRec) (elapsed : Nat → Nat)
    (wait : Int) (hw : wait < 0) :
    ∀ fuel m p, fetch_cached_loop cache elapsed wait m fuel = some p →
      p.1.isSome = true := by
  intro fuel
  induction fuel with
  | zero => intro m p h; exact Option.noConfusion h
  | succ fuel ih =>
    intro m p h
    simp only [fetch_cached_loop] at h
    cases hc : cache m with
    | some task =>
      rw [hc] at h
      injection h with h2
      rw [← h2]
      rfl
    | none =>
      rw [hc, if_neg (not_timed_out_of_neg (elapsed m) wait hw)] at h
      exact ih (m + 1) p h

theorem result_group_loop_found (group_at : Nat → List Val) (elapsed : Nat → Nat)
    (wait : Int) (hw : wait < 0) :
    ∀ fuel m p, result_group_loop group_at elapsed wait m fuel = some p →
      p.1.isSome = true := by
  intro fuel
  induction fuel with
  | zero => intro m p h; exact Option.noConfusion h
  | succ fuel ih =>
    intro m p h
    simp only [result_group_loop] at h
    by_cases h1 : (!(group_at m).isEmpty) = true
    · rw [if_pos h1] at h
      injection h with h2
      rw [← h2]
      rfl
    · rw [if_neg h1, if_neg (not_timed_out_of_neg (elapsed m) wait hw)] at h
      exact ih (m + 1) p h

theorem result_group_cached_loop_found (group_list : Nat → List String)
    (task_of : String → TaskRec) (failures : Bool) (elapsed : Nat → Nat)
    (wait : Int) (hw : wait < 0) :
    ∀ fuel m p, result_group_cached_loop group_list task_of failures elapsed wait m fuel
      = some p → p.1.isSome = true := by
  intro fuel
  induction fuel with
  | zero => intro m p h; exact Option.noConfusion h
  | succ fuel ih =>
    intro m p h
    simp only [result_group_cached_loop] at h
    by_cases h1 : (!(group_list m).isEmpty) = true
    · rw [if_pos h1] at h
      injection h with h2
      rw [← h2]
      rfl
    · rw [if_neg h1, if_neg (not_timed_out_of_neg (elapsed m) wait hw)] at h
      exact ih (m + 1) p h

theorem fetch_group_loop_found (gtasks : Nat → List TaskRec) (elapsed : Nat → Nat)
    (wait : Int) (hw : wait < 0) :
    ∀ fuel m p, fetch_group_loop gtasks elapsed wait m fuel = some p →
      p.1.isSome = true := by
  intro fuel
  induction fuel with
  | zero => intro m p h; exact Option.noConfusion h
  | succ fuel ih =>
    intro m p h
    simp only [fetch_group_loop] at h
    by_cases h1 : (!(gtasks m).isEmpty) = true
    · rw [if_pos h1] at h
      injection h with h2
      rw [← h2]
      rfl
    · rw [if_neg h1, if_neg (not_timed_out_of_neg (elapsed m) wait hw)] at h
      exact ih (m + 1) p h

theorem fetch_group_cached_loop_found (group_list : Nat → List String)
    (task_of : String → TaskRec) (failures : Bool) (elapsed : Nat → Nat)
    (wait : Int) (hw : wait < 0) :
    ∀ fuel m p, fetch_group_cached_loop group_list task_of failures elapsed wait m fuel
      = some p → p.1.isSome = true := by
  intro fuel
  induction fuel with
  | zero => intro m p h; exact Option.noConfusion h
  | succ fuel ih =>
    intro m p h
    simp only [fetch_group_cached_loop] at h
    by_cases h1 : (!(group_list m).isEmpty) = true
    · rw [if_pos h1] at h
      injection h with h2
      rw [← h2]
      rfl
    · rw [if_neg h1, if_neg (not_timed_out_of_neg (elapsed m) wait hw)] at h
      exact ih (m + 1) p h

theorem result_loop_spins (store : Nat → Val) (elapsed : Nat → Nat) (wait : Int)
    (hw : wait < 0) (habs : ∀ n, (store n).truthy = false) :
    ∀ fuel m, result_loop store elapsed wait m fuel = Option.none := by
  intro fuel
  induction fuel with
  | zero => intro m; rfl
  | succ fuel ih =>
    intro m
    simp only [result_loop]
    rw [if_neg (by simp [habs m]), if_neg (not_timed_out_of_neg (elapsed m) wait hw)]
    exact ih (m + 1)

theorem result_cached_loop_spins (cache : Nat → Option TaskRec) (elapsed : Nat → Nat)
    (wait : Int) (hw : wait < 0) (habs : ∀ n, cache n = Option.none) :
    ∀ fuel m, result_cached_loop cache elapsed wait m fuel = Option.none := by
  intro fuel
  induction fuel with
  | zero => intro m; rfl
  | succ fuel ih =>
    intro m
    simp only [result_cached_loop]
    rw [habs m, if_neg (not_timed_out_of_neg (elapsed m) wait hw)]
    exact ih (m + 1)

theorem count_loop_no_break (count_at : Nat → Option Int) (c : Int) (elapsed : Nat → Nat)
    (wait : Int) (hw : wait ≤ 0) (hnm : ∀ n, count_at n ≠ some c) :
    ∀ fuel m, count_loop count_at c elapsed wait m fuel = Option.none := by
  intro fuel
  induction fuel with
  | zero => intro m; rfl
  | succ fuel ih =>
    intro m
    simp only [count_loop]
    rw [if_neg ?hcond]
    case hcond =>
      rintro (hl | ⟨hne, ht⟩)
      · exact hnm m hl
      · have : wait = 0 := le_antisymm hw ht.2
        exact hne this
    exact ih (m + 1)

theorem count_loop_pos_no_break (count_at : Nat → Option Int) (c : Int)
    (elapsed : Nat → Nat) (wait : Int) (hw : wait ≤ 0)
    (hnm : ∀ n, count_at n ≠ some c) :
    ∀ fuel m, count_loop_pos count_at c elapsed wait m fuel = Option.none := by
  intro fuel
  induction fuel with
  | zero => intro m; rfl
  | succ fuel ih =>
    intro m
    simp only [count_loop_pos]
    rw [if_neg ?hcond]
    case hcond =>
      rintro (hl | ⟨hne, ht⟩)
      · exact hnm m hl
      · exact absurd ht.2 (not_lt.mpr hw)
    exact ih (m + 1)

theorem result_group_found (group_at : Nat → List Val) (count_at : Nat → Option Int)
    (group_list : Nat → List String) (task_of : String → TaskRec) (failures : Bool)
    (elapsed : Nat → Nat) (wait : Int) (cnt : Option Int) (fuel : Nat)
    (p : Option (List Val) × Nat) (hw : wait < 0)
    (h : result_group group_at count_at group_list task_of failures elapsed wait cnt false
      fuel = some p) : p.1.isSome = true := by
  cases cnt with
  | none =>
    simp only [result_group, Bool.false_eq_true, if_false] at h
    exact result_group_loop_found group_at elapsed wait hw fuel 0 p h
  | some c =>
    simp only [result_group, Bool.false_eq_true, if_false] at h
    by_cases hc : c ≠ 0
    · rw [if_pos hc] at h
      cases hk : count_loop count_at c elapsed wait 0 fuel with
      | none => rw [hk] at h; exact Option.noConfusion h
      | some k =>
        rw [hk] at h
        exact result_group_loop_found group_at elapsed wait hw fuel k p h
    · rw [if_neg hc] at h
      exact result_group_loop_found group_at elapsed wait hw fuel 0 p h

theorem result_group_cached_found (group_list : Nat → List String)
    (task_of : String → TaskRec) (failures : Bool) (elapsed : Nat → Nat) (wait : Int)
    (cnt : Option Int) (fuel : Nat) (p : Option (List Val) × Nat) (hw : wait < 0)
    (h : result_group_cached group_list task_of failures elapsed wait cnt fuel = some p) :
    p.1.isSome = true := by
  cases cnt with
  | none =>
    simp only [result_group_cached] at h
    exact result_group_cached_loop_found group_list task_of failures elapsed wait hw
      fuel 0 p h
  | some c =>
    simp only [result_group_cached] at h
    by_cases hc : c ≠ 0
    · rw [if_pos hc] at h
      cases hk : count_loop_pos (fun n => count_group_cached (group_list n) task_of false)
          c elapsed wait 0 fuel with
      | none => rw [hk] at h; exact Option.noConfusion h
      | some k =>
        rw [hk] at h
        exact result_group_cached_loop_found group_list task_of failures elapsed wait hw
          fuel k p h
    · rw [if_neg hc] at h
      exact result_group_cached_loop_found group_list task_of failures elapsed wait hw
        fuel 0 p h

theorem fetch_group_found (gtasks : Nat → List TaskRec) (count_at : Nat → Option Int)
    (group_list : Nat → List String) (task_of : String → TaskRec) (failures : Bool)
    (elapsed : Nat → Nat) (wait : Int) (cnt : Option Int) (fuel : Nat)
    (p : Option (List TaskRec) × Nat) (hw : wait < 0)
    (h : fetch_group gtasks count_at group_list task_of failures elapsed wait cnt false
      fuel = some p) : p.1.isSome = true := by
  cases cnt with
  | none =>
    simp only [fetch_group, Bool.false_eq_true, if_false] at h
    exact fetch_group_loop_found gtasks elapsed wait hw fuel 0 p h
  | some c =>
    simp only [fetch_group, Bool.false_eq_true, if_false] at h
    by_cases hc : c ≠ 0
    · rw [if_pos hc] at h
      cases hk : count_loop count_at c elapsed wait 0 fuel with
      | none => rw [hk] at h; exact Option.noConfusion h
      | some k =>
        rw [hk] at h
        exact fetch_group_loop_found gtasks elapsed wait hw fuel k p h
    · rw [if_neg hc] at h
      exact fetch_group_loop_found gtasks elapsed wait hw fuel 0 p h

theorem fetch_group_cached_found (group_list : Nat → List String)
    (task_of : String → TaskRec) (failures : Bool) (elapsed : Nat → Nat) (wait : Int)
    (cnt : Option Int) (fuel : Nat) (p : Option (List TaskRec) × Nat) (hw : wait < 0)
    (h : fetch_group_cached group_list task_of failures elapsed wait cnt fuel = some p) :
    p.1.isSome = true := by
  cases cnt with
  | none =>
    simp only [fetch_group_cached] at h
    exact fetch_group_cached_loop_found group_list task_of failures elapsed wait hw
      fuel 0 p h
  | some c =>
    simp only [fetch_group_cached] at h
    by_cases hc : c ≠ 0
    · rw [if_pos hc] at h
      cases hk : count_loop (fun n => count_group_cached (group_list n) task_of false)
          c elapsed wait 0 fuel with
      | none => rw [hk] at h; exact Option.noConfusion h
      | some k =>
        rw [hk] at h
        exact fetch_group_cached_loop_found group_list task_of failures elapsed wait hw
          fuel k p h
    · rw [if_neg hc] at h
      exact fetch_group_cached_loop_found group_list task_of failures elapsed wait hw
        fuel 0 p h

/-! ### Claim C2 -/

/-- C2: for every blocking retrieval operation (`result`, `result_cached`,
`fetch`, `fetch_cached`, `result_group`, `result_group_cached`,
`fetch_group`, `fetch_group_cached`) called with `wait < 0`, the poll loop
never terminates with the absent value: whenever a call returns, it is
because the value appeared (the returned result is a truthy store value,
resp. a present cache record / task / group list) — the timeout branch is
unreachable because `wait >= 0` fails.  Moreover, while the value stays
absent the loop keeps polling: no amount of fuel makes `result` (either
backend) return, and with a count constraint that is never satisfied the
group operations poll the count forever. -/
theorem c2_negative_wait_blocks
    (wait : Int) (fuel : Nat) (failures : Bool) (c : Int)
    (store store' : Nat → Val) (cache cache' task_at : Nat → Option TaskRec)
    (group_at : Nat → List Val) (gtasks : Nat → List TaskRec)
    (count_at count_at' : Nat → Option Int) (group_list : Nat → List String)
    (task_of : String → TaskRec) (elapsed : Nat → Nat) (cnt : Option Int)
    (pr pc : Val × Nat) (pf pfc : Option TaskRec × Nat)
    (pg pgc : Option (List Val) × Nat) (pfg pfgc : Option (List TaskRec) × Nat)
    (hw : wait < 0)
    (h1 : result store cache elapsed wait false fuel = some pr)
    (h2 : result_cached cache elapsed wait fuel = some pc)
    (h3 : fetch task_at cache elapsed wait false fuel = some pf)
    (h4 : fetch_cached cache elapsed wait fuel = some pfc)
    (h5 : result_group group_at count_at group_list task_of failures elapsed wait cnt
      false fuel = some pg)
    (h6 : result_group_cached group_list task_of failures elapsed wait cnt fuel
      = some pgc)
    (h7 : fetch_group gtasks count_at group_list task_of failures elapsed wait cnt
      false fuel = some pfg)
    (h8 : fetch_group_cached group_list task_of failures elapsed wait cnt fuel
      = some pfgc)
    (habs : ∀ n, (store' n).truthy = false)
    (habs2 : ∀ n, cache' n = Option.none)
    (hc : c ≠ 0) (hnm : ∀ n, count_at' n ≠ some c) :
    pr.1.truthy = true ∧ (cache pc.2).isSome = true ∧ pf.1.isSome = true ∧
    pfc.1.isSome = true ∧ pg.1.isSome = true ∧ pgc.1.isSome = true ∧
    pfg.1.isSome = true ∧ pfgc.1.isSome = true ∧
    result_loop store' elapsed wait 0 fuel = Option.none ∧
    result_cached_loop cache' elapsed wait 0 fuel = Option.none ∧
    result_group group_at count_at' group_list task_of failures elapsed wait (some c)
      false fuel = Option.none := by
  refine ⟨?_, ?_, ?_, ?_, ?_, ?_, ?_, ?_, ?_, ?_, ?_⟩
  · simp only [result, Bool.false_eq_true, if_false] at h1
    exact result_loop_found store elapsed wait hw fuel 0 pr h1
  · simp only [result_cached] at h2
    exact result_cached_loop_found cache elapsed wait hw fuel 0 pc h2
  · simp only [fetch, Bool.false_eq_true, if_false] at h3
    exact fetch_loop_found task_at elapsed wait hw fuel 0 pf h3
  · simp only [fetch_cached] at h4
    exact fetch_cached_loop_found cache elapsed wait hw fuel 0 pfc h4
  · exact result_group_found group_at count_at group_list task_of failures elapsed wait
      cnt fuel pg hw h5
  · exact result_group_cached_found group_list task_of failures elapsed wait cnt fuel
      pgc hw h6
  · exact fetch_group_found gtasks count_at group_list task_of failures elapsed wait
      cnt fuel pfg hw h7
  · exact fetch_group_cached_found group_list task_of failures elapsed wait cnt fuel
      pfgc hw h8
  · exact result_loop_spins store' elapsed wait hw habs fuel 0
  · exact result_cached_loop_spins cache' elapsed wait hw habs2 fuel 0
  · simp only [result_group, Bool.false_eq_true, if_false, if_pos hc,
      count_loop_no_break count_at' c elapsed wait hw.le hnm fuel 0]

/-- Witness for C2 at `wait = -1`, fuel 4, with concrete stores in which
every value is present at the first check (so all eight operations return a
present value), plus all-absent stores on which the loops never return, and
an unsatisfiable count. -/
theorem c2_witness :
    (Val.int 7, 0).1.truthy = true ∧
    ((fun _ : Nat => some ({ result := Val.int 5 } : TaskRec))
      ((Val.int 5, 0) : Val × Nat).2).isSome = true ∧
    ((some ({} : TaskRec), 0) : Option TaskRec × Nat).1.isSome = true ∧
    ((some ({ result := Val.int 5 } : TaskRec), 0) : Option TaskRec × Nat).1.isSome
      = true ∧
    ((some [Val.int 1], 0) : Option (List Val) × Nat).1.isSome = true ∧
    ((some [Val.int 5], 0) : Option (List Val) × Nat).1.isSome = true ∧
    ((some [({} : TaskRec)], 0) : Option (List TaskRec) × Nat).1.isSome = true ∧
    ((some [({ result := Val.int 5 } : TaskRec)], 0) :
      Option (List TaskRec) × Nat).1.isSome = true ∧
    result_loop (fun _ => Val.none) (fun n => 10 * n) (-1) 0 4 = Option.none ∧
    result_cached_loop (fun _ => Option.none) (fun n => 10 * n) (-1) 0 4 = Option.none ∧
    result_group (fun _ => [Val.int 1]) (fun _ => Option.none) (fun _ => ["k1"])
      (fun _ => { result := Val.int 5 }) false (fun n => 10 * n) (-1) (some 2) false 4
      = Option.none :=
  c2_negative_wait_blocks (-1) 4 false 2 (fun _ => Val.int 7) (fun _ => Val.none)
    (fun _ => some { result := Val.int 5 }) (fun _ => Option.none) (fun _ => some {})
    (fun _ => [Val.int 1]) (fun _ => [{}]) (fun _ => Option.none) (fun _ => Option.none)
    (fun _ => ["k1"]) (fun _ => { result := Val.int 5 }) (fun n => 10 * n) Option.none
    (Val.int 7, 0) (Val.int 5, 0) (some {}, 0) (some { result := Val.int 5 }, 0)
    (some [Val.int 1], 0) (some [Val.int 5], 0) (some [{}], 0)
    (some [{ result := Val.int 5 }], 0) (by decide) rfl rfl rfl rfl rfl rfl rfl rfl
    (fun _ => rfl) (fun _ => rfl) (by decide) (fun _ h => Option.noConfusion h)

/-! ### Claim C1 -/

/-- C1 counterexample: against the claim, `result_group` called with
`wait = 0` and a count constraint (`count = 3`) that the store does not
satisfy does NOT perform exactly one check and return the absent value
immediately — after 7 poll iterations (hence 7 sleeps of the poll interval)
it is still polling, because in the pre-wait loop's break condition
`count_group(group_id) == count or wait and elapsed >= wait >= 0`
(tasks.py line 145) the conjunct `wait and ...` is falsy for `wait == 0`,
so the timeout can never fire. -/
theorem c1_counterexample :
    result_group (fun _ => []) (fun _ => some 0) (fun _ => []) (fun _ => {}) false
      (fun n => 10 * n) 0 (some 3) false 7 = Option.none ∧
    result_group (fun _ => []) (fun _ => some 0) (fun _ => []) (fun _ => {}) false
      (fun n => 10 * n) 0 (some 3) false 7 ≠ some (Option.none, 0) :=
  ⟨rfl, fun h => Option.noConfusion h⟩

/-- C1 (amended): with `wait = 0` every main polling loop of the eight
retrieval operations performs exactly one check and, when the value is
absent at that first check, returns the absent value immediately with zero
sleeps; however the count-constrained pre-wait loop of the four group
operations treats `wait == 0` as "no timeout" (`wait and ...` is falsy on
tasks.py lines 145, 166, 248, 269), so with a count given and never
satisfied those calls do not return — no fuel suffices. -/
theorem c1_amended
    (fuel : Nat) (failures : Bool) (c : Int)
    (store : Nat → Val) (cache task_at : Nat → Option TaskRec)
    (group_at : Nat → List Val) (gtasks : Nat → List TaskRec)
    (count_at : Nat → Option Int) (group_list : Nat → List String)
    (task_of : String → TaskRec) (elapsed : Nat → Nat)
    (h1 : (store 0).truthy = false) (h2 : cache 0 = Option.none)
    (h3 : task_at 0 = Option.none) (h4 : group_at 0 = [])
    (h5 : gtasks 0 = []) (h6 : ∀ n, group_list n = [])
    (hc : c ≠ 0) (hnm : ∀ n, count_at n ≠ some c) :
    result store cache elapsed 0 false (fuel + 1) = some (Val.none, 0) ∧
    result_cached cache elapsed 0 (fuel + 1) = some (Val.none, 0) ∧
    fetch task_at cache elapsed 0 false (fuel + 1) = some (Option.none, 0) ∧
    fetch_cached cache elapsed 0 (fuel + 1) = some (Option.none, 0) ∧
    result_group group_at count_at group_list task_of failures elapsed 0 Option.none
      false (fuel + 1) = some (Option.none, 0) ∧
    result_group_cached group_list task_of failures elapsed 0 Option.none (fuel + 1)
      = some (Option.none, 0) ∧
    fetch_group gtasks count_at group_list task_of failures elapsed 0 Option.none
      false (fuel + 1) = some (Option.none, 0) ∧
    fetch_group_cached group_list task_of failures elapsed 0 Option.none (fuel + 1)
      = some (Option.none, 0) ∧
    result_group group_at count_at group_list task_of failures elapsed 0 (some c)
      false fuel = Option.none ∧
    result_group_cached group_list task_of failures elapsed 0 (some c) fuel
      = Option.none ∧
    fetch_group gtasks count_at group_list task_of failures elapsed 0 (some c)
      false fuel = Option.none ∧
    fetch_group_cached group_list task_of failures elapsed 0 (some c) fuel
      = Option.none := by
  have ht : timed_out (elapsed 0) 0 := ⟨Int.natCast_nonneg _, le_refl 0⟩
  have hnm2 : ∀ n, count_group_cached (group_list n) task_of false ≠ some c := by
    intro n
    rw [h6 n]
    simp [count_group_cached]
  refine ⟨?_, ?_, ?_, ?_, ?_, ?_, ?_, ?_, ?_, ?_, ?_, ?_⟩
  · simp only [result, Bool.false_eq_true, if_false, result_loop]
    rw [if_neg (by simp [h1]), if_pos ht]
  · simp only [result_cached, result_cached_loop, h2]
    rw [if_pos ht]
  · simp only [fetch, Bool.false_eq_true, if_false, fetch_loop, h3]
    rw [if_pos ht]
  · simp only [fetch_cached, fetch_cached_loop, h2]
    rw [if_pos ht]
  · simp only [result_group, Bool.false_eq_true, if_false, result_group_loop, h4,
      List.isEmpty_nil, Bool.not_true]
    rw [if_pos ht]
  · simp only [result_group_cached, result_group_cached_loop, h6 0, List.isEmpty_nil,
      Bool.not_true]
    rw [if_neg (by simp), if_pos ht]
  · simp only [fetch_group, Bool.false_eq_true, if_false, fetch_group_loop, h5,
      List.isEmpty_nil, Bool.not_true]
    rw [if_pos ht]
  · simp only [fetch_group_cached, fetch_group_cached_loop, h6 0, List.isEmpty_nil,
      Bool.not_true]
    rw [if_neg (by simp), if_pos ht]
  · simp only [result_group, Bool.false_eq_true, if_false, if_pos hc,
      count_loop_no_break count_at c elapsed 0 (le_refl 0) hnm fuel 0]
  · simp only [result_group_cached, if_pos hc,
      count_loop_pos_no_break (fun n => count_group_cached (group_list n) task_of false)
        c elapsed 0 (le_refl 0) hnm2 fuel 0]
  · simp only [fetch_group, Bool.false_eq_true, if_false, if_pos hc,
      count_loop_no_break count_at c elapsed 0 (le_refl 0) hnm fuel 0]
  · simp only [fetch_group_cached, if_pos hc,
      count_loop_no_break (fun n => count_group_cached (group_list n) task_of false)
        c elapsed 0 (le_refl 0) hnm2 fuel 0]

/-- Witness for C1 (amended) at fuel 6, count 3, all-absent concrete
stores. -/
theorem c1_amended_witness :
    result (fun _ => Val.none) (fun _ => Option.none) (fun n => 10 * n) 0 false 7
      = some (Val.none, 0) ∧
    result_cached (fun _ => Option.none) (fun n => 10 * n) 0 7 = some (Val.none, 0) ∧
    fetch (fun _ => Option.none) (fun _ => Option.none) (fun n => 10 * n) 0 false 7
      = some (Option.none, 0) ∧
    fetch_cached (fun _ => Option.none) (fun n => 10 * n) 0 7 = some (Option.none, 0) ∧
    result_group (fun _ => []) (fun _ => some 0) (fun _ => []) (fun _ => {}) false
      (fun n => 10 * n) 0 Option.none false 7 = some (Option.none, 0) ∧
    result_group_cached (fun _ => []) (fun _ => {}) false (fun n => 10 * n) 0
      Option.none 7 = some (Option.none, 0) ∧
    fetch_group (fun _ => []) (fun _ => some 0) (fun _ => []) (fun _ => {}) false
      (fun n => 10 * n) 0 Option.none false 7 = some (Option.none, 0) ∧
    fetch_group_cached (fun _ => []) (fun _ => {}) false (fun n => 10 * n) 0
      Option.none 7 = some (Option.none, 0) ∧
    result_group (fun _ => []) (fun _ => some 0) (fun _ => []) (fun _ => {}) false
      (fun n => 10 * n) 0 (some 3) false 6 = Option.none ∧
    result_group_cached (fun _ => []) (fun _ => {}) false (fun n => 10 * n) 0 (some 3) 6
      = Option.none ∧
    fetch_group (fun _ => []) (fun _ => some 0) (fun _ => []) (fun _ => {}) false
      (fun n => 10 * n) 0 (some 3) false 6 = Option.none ∧
    fetch_group_cached (fun _ => []) (fun _ => {}) false (fun n => 10 * n) 0 (some 3) 6
      = Option.none :=
  c1_amended 6 false 3 (fun _ => Val.none) (fun _ => Option.none) (fun _ => Option.none)
    (fun _ => []) (fun _ => []) (fun _ => some 0) (fun _ => []) (fun _ => {})
    (fun n => 10 * n) rfl rfl rfl rfl rfl (fun _ => rfl) (by decide)
    (fun _ h => absurd (Option.some.inj h) (by decide))

/-! ### Claim C3 -/

/-- C3 counterexample: submitting `f` with args `(1, 2)` and `sync=True`
does execute in-process (nothing is enqueued; the one-shot worker/monitor
simulation runs and its finished result is `f(1,2) = 3`), but the value
`async` returns is the task id — line 573 of tasks.py returns `task['id']`
— not the finished result of applying the function, contradicting the
claim's last conjunct. -/
theorem c3_counterexample :
    ((async addSem (Val.str "f") [Val.int 1, Val.int 2] [("sync", Val.bool true)]
        (Val.bool false) false 0 ("n1", "id1")).getD default).enqueued = [] ∧
    ((async addSem (Val.str "f") [Val.int 1, Val.int 2] [("sync", Val.bool true)]
        (Val.bool false) false 0 ("n1", "id1")).getD default).syncRun.map
      (fun s => s.executedResult) = some (Val.int 3) ∧
    Val.str (((async addSem (Val.str "f") [Val.int 1, Val.int 2]
        [("sync", Val.bool true)] (Val.bool false) false 0
        ("n1", "id1")).getD default).ret) ≠ Val.int 3 :=
  ⟨rfl, rfl, fun h => Val.noConfusion h⟩

/-- C3 (amended): when `async` runs with a truthy `sync` option on the
built package (or the process-wide synchronous flag set), the task is
executed in-process via the one-shot worker/monitor simulation of the
signed package, no enqueue call is made on the broker, and the value
returned from the submit call is the task id of the built package (line
573), not the function's result. -/
theorem c3_amended (funcSem : Val → List Val → Dict → Val) (func : Val) (args : List Val)
    (kwargs : Dict) (cc : Val) (cs : Bool) (now : Nat) (tag : String × String)
    (out : AsyncOut)
    (h : async funcSem func args kwargs cc cs now tag = some out)
    (hs : ((out.task.sync.map Val.truthy).getD false || cs) = true) :
    out.enqueued = [] ∧
    out.syncRun = some (_sync funcSem (SignedPackage.dumps out.task)) ∧
    out.ret = out.task.id := by
  unfold async at h
  split at h
  · injection h with h1
    subst h1
    rw [async_core_task] at hs
    rw [async_core_task]
    exact async_core_sync_run funcSem func args _ _ cc cs now tag hs
  · exact Option.noConfusion h
  · injection h with h1
    subst h1
    rw [async_core_task] at hs
    rw [async_core_task]
    exact async_core_sync_run funcSem func args _ _ cc cs now tag hs

/-- Witness for C3 (amended) at the concrete `sync=True` submission. -/
theorem c3_witness :
    ((async addSem (Val.str "f") [Val.int 1, Val.int 2] [("sync", Val.bool true)]
        (Val.bool false) false 0 ("n1", "id1")).getD default).enqueued = [] ∧
    ((async addSem (Val.str "f") [Val.int 1, Val.int 2] [("sync", Val.bool true)]
        (Val.bool false) false 0 ("n1", "id1")).getD default).syncRun
      = some (_sync addSem (SignedPackage.dumps (((async addSem (Val.str "f")
          [Val.int 1, Val.int 2] [("sync", Val.bool true)] (Val.bool false) false 0
          ("n1", "id1")).getD default).task))) ∧
    ((async addSem (Val.str "f") [Val.int 1, Val.int 2] [("sync", Val.bool true)]
        (Val.bool false) false 0 ("n1", "id1")).getD default).ret
      = ((async addSem (Val.str "f") [Val.int 1, Val.int 2] [("sync", Val.bool true)]
        (Val.bool false) false 0 ("n1", "id1")).getD default).task.id :=
  c3_amended addSem (Val.str "f") [Val.int 1, Val.int 2] [("sync", Val.bool true)]
    (Val.bool false) false 0 ("n1", "id1") _ rfl rfl

/-! ### Claim C4 -/

/-- C4 counterexample: when no `q_options` mapping is supplied, line 20
(`options = kwargs.pop('q_options', kwargs)`) aliases the options
dictionary to the kwargs dictionary itself, so a kwargs entry named after
an option (`hook` here) IS extracted as the option: it is removed from the
package's kwargs (which come out empty, not passed through unchanged) and
lands in the package's `hook` field — contradicting the claim's "never from
the callee's kwargs mapping". -/
theorem c4_counterexample :
    ((async addSem (Val.str "f") [] [("hook", Val.str "h")] (Val.bool false) false 0
        ("n1", "id1")).getD default).task.kwargs = [] ∧
    ((async addSem (Val.str "f") [] [("hook", Val.str "h")] (Val.bool false) false 0
        ("n1", "id1")).getD default).task.kwargs ≠ [("hook", Val.str "h")] ∧
    ((async addSem (Val.str "f") [] [("hook", Val.str "h")] (Val.bool false) false 0
        ("n1", "id1")).getD default).task.hook = some (Val.str "h") :=
  ⟨rfl, fun h => List.noConfusion h, rfl⟩

/-- C4 (amended): when the caller does supply a `q_options` mapping, the
recognised options are extracted only from it — kwargs entries with option
names are passed through to the package's kwargs unchanged — and every
option absent from the mapping takes its default (`Conf.CACHED` for
`cached`, `None` otherwise).  Without `q_options`, the options are
extracted directly from the kwargs dictionary itself (line 20). -/
theorem c4_amended (funcSem : Val → List Val → Dict → Val) (func : Val) (args : List Val)
    (kwargs0 kw qd : Dict) (cc : Val) (cs : Bool) (now : Nat) (tag : String × String)
    (out : AsyncOut)
    (hq : getD? kwargs0 "q_options" = some (Val.dict qd))
    (hrest : delKey kwargs0 "q_options" = kw)
    (h : async funcSem func args kwargs0 cc cs now tag = some out) :
    out.task.kwargs = kw ∧
    out.task.hook = asOptional ((getD? qd "hook").getD Val.none) ∧
    out.task.group = asOptional ((getD? qd "group").getD Val.none) ∧
    out.task.save = asOptional ((getD? qd "save").getD Val.none) ∧
    out.task.sync = asOptional ((getD? qd "sync").getD Val.none) ∧
    out.task.cached = asOptional ((getD? qd "cached").getD cc) ∧
    out.task.iter_count = asOptional ((getD? qd "iter_count").getD Val.none) ∧
    out.task.iter_cached = asOptional ((getD? qd "iter_cached").getD Val.none) ∧
    out.task.chain = asOptional ((getD? qd "chain").getD Val.none) := by
  unfold async at h
  rw [hq] at h
  injection h with h1
  subst h1
  rw [async_core_task, build_task_spec]
  refine ⟨?_, rfl, rfl, rfl, rfl, rfl, rfl, rfl, rfl⟩
  simp only [Option.getD_some]
  exact hrest

/-- Witness for C4 (amended): `group` inside `q_options`, an option-named
entry (`hook`) in the kwargs; the kwargs entry passes through, `group`
comes from `q_options`, and `cached` falls back to the process default. -/
theorem c4_witness :
    ((async addSem (Val.str "f") []
        [("q_options", Val.dict [("group", Val.str "G")]), ("hook", Val.str "kw_h")]
        (Val.bool false) false 0 ("n1", "id1")).getD default).task.kwargs
      = [("hook", Val.str "kw_h")] ∧
    ((async addSem (Val.str "f") []
        [("q_options", Val.dict [("group", Val.str "G")]), ("hook", Val.str "kw_h")]
        (Val.bool false) false 0 ("n1", "id1")).getD default).task.hook = Option.none ∧
    ((async addSem (Val.str "f") []
        [("q_options", Val.dict [("group", Val.str "G")]), ("hook", Val.str "kw_h")]
        (Val.bool false) false 0 ("n1", "id1")).getD default).task.group
      = some (Val.str "G") ∧
    ((async addSem (Val.str "f") []
        [("q_options", Val.dict [("group", Val.str "G")]), ("hook", Val.str "kw_h")]
        (Val.bool false) false 0 ("n1", "id1")).getD default).task.save = Option.none ∧
    ((async addSem (Val.str "f") []
        [("q_options", Val.dict [("group", Val.str "G")]), ("hook", Val.str "kw_h")]
        (Val.bool false) false 0 ("n1", "id1")).getD default).task.sync = Option.none ∧
    ((async addSem (Val.str "f") []
        [("q_options", Val.dict [("group", Val.str "G")]), ("hook", Val.str "kw_h")]
        (Val.bool false) false 0 ("n1", "id1")).getD default).task.cached
      = some (Val.bool false) ∧
    ((async addSem (Val.str "f") []
        [("q_options", Val.dict [("group", Val.str "G")]), ("hook", Val.str "kw_h")]
        (Val.bool false) false 0 ("n1", "id1")).getD default).task.iter_count
      = Option.none ∧
    ((async addSem (Val.str "f") []
        [("q_options", Val.dict [("group", Val.str "G")]), ("hook", Val.str "kw_h")]
        (Val.bool false) false 0 ("n1", "id1")).getD default).task.iter_cached
      = Option.none ∧
    ((async addSem (Val.str "f") []
        [("q_options", Val.dict [("group", Val.str "G")]), ("hook", Val.str "kw_h")]
        (Val.bool false) false 0 ("n1", "id1")).getD default).task.chain = Option.none :=
  c4_amended addSem (Val.str "f") []
    [("q_options", Val.dict [("group", Val.str "G")]), ("hook", Val.str "kw_h")]
    [("hook", Val.str "kw_h")] [("group", Val.str "G")] (Val.bool false) false 0
    ("n1", "id1") _ rfl rfl rfl

/-! ### Claim C5 -/

/-- C5 counterexample: an `arg_sets` element that is a Python *list* (a
sequence, but not a tuple) is not passed through as the argument sequence:
`if type(args) is not tuple` (tasks.py line 399) wraps it, so the submitted
task's positional arguments are the one-element sequence containing the
list, not the list's elements as the claim's normalisation
(`claimed_normalize`) would give. -/
theorem c5_counterexample :
    ((async_iter addSem (Val.str "f") [Val.list [Val.int 1, Val.int 2]] []
        (Val.bool false) false 0 "lk" "G" (fun _ => ("n", "id"))).getD default).subs.map
      (fun o => o.task.args) = [[Val.list [Val.int 1, Val.int 2]]] ∧
    claimed_normalize (Val.list [Val.int 1, Val.int 2]) = [Val.int 1, Val.int 2] ∧
    ([[Val.list [Val.int 1, Val.int 2]]] : List (List Val)) ≠ [[Val.int 1, Val.int 2]] := by
  refine ⟨rfl, rfl, ?_⟩
  intro hcontra
  injection hcontra with h1 h2
  injection h1 with h3 h4
  exact Val.noConfusion h3

/-- C5 (amended): for every `async_iter` call (over kwargs carrying no
`q_options` key), each element of `arg_sets` is normalised by
`normalize_args` — a tuple is splatted as the argument sequence, any other
value (including a list) becomes a one-element sequence — one task is
submitted per element carrying `group` = the fresh group id and
`iter_count` = the number of elements, the original argument sequence is
cached signed under `list_key:gid:args`, and the group id is returned. -/
theorem c5_amended (funcSem : Val → List Val → Dict → Val) (func : Val)
    (args_iter : List Val) (kwargs : Dict) (cc : Val) (cs : Bool) (now : Nat)
    (list_key gid : String) (tags : Nat → String × String) (out : IterOut)
    (hq : getD? kwargs "q_options" = Option.none)
    (h : async_iter funcSem func args_iter kwargs cc cs now list_key gid tags
      = some out) :
    out.ret = gid ∧
    out.subs.map (fun o => o.task.group)
      = List.replicate args_iter.length (some (Val.str gid)) ∧
    out.subs.map (fun o => o.task.iter_count)
      = List.replicate args_iter.length (some (Val.int (args_iter.length : Int))) ∧
    out.subs.map (fun o => o.task.args) = args_iter.map normalize_args ∧
    out.cacheSetKey = list_key ++ ":" ++ gid ++ ":args" ∧
    out.cacheSetVal = SignedPackage.dumps args_iter := by
  unfold async_iter at h
  simp only [hq] at h
  obtain ⟨subs, hs, hmg, hmi, hma⟩ :=
    async_iter_go_spec funcSem func (iter_options kwargs gid (args_iter.length : Int))
      cc cs now tags (Val.str gid) (Val.int (args_iter.length : Int))
      (iter_options_qopts kwargs gid _ hq) (iter_options_group kwargs gid _)
      (iter_options_iter_count kwargs gid _) args_iter 0
  rw [hs] at h
  injection h with h1
  subst h1
  exact ⟨rfl, hmg, hmi, hma, rfl, rfl⟩

/-- Witness for C5 (amended): a two-element `arg_sets` with one tuple and
one plain value. -/
theorem c5_witness :
    ((async_iter addSem (Val.str "f") [Val.tuple [Val.int 1, Val.int 2], Val.int 9] []
        (Val.bool false) false 0 "lk" "G" (fun _ => ("n", "id"))).getD default).ret
      = "G" ∧
    ((async_iter addSem (Val.str "f") [Val.tuple [Val.int 1, Val.int 2], Val.int 9] []
        (Val.bool false) false 0 "lk" "G" (fun _ => ("n", "id"))).getD default).subs.map
      (fun o => o.task.group) = List.replicate 2 (some (Val.str "G")) ∧
    ((async_iter addSem (Val.str "f") [Val.tuple [Val.int 1, Val.int 2], Val.int 9] []
        (Val.bool false) false 0 "lk" "G" (fun _ => ("n", "id"))).getD default).subs.map
      (fun o => o.task.iter_count) = List.replicate 2 (some (Val.int 2)) ∧
    ((async_iter addSem (Val.str "f") [Val.tuple [Val.int 1, Val.int 2], Val.int 9] []
        (Val.bool false) false 0 "lk" "G" (fun _ => ("n", "id"))).getD default).subs.map
      (fun o => o.task.args) = [[Val.int 1, Val.int 2], [Val.int 9]] ∧
    ((async_iter addSem (Val.str "f") [Val.tuple [Val.int 1, Val.int 2], Val.int 9] []
        (Val.bool false) false 0 "lk" "G" (fun _ => ("n", "id"))).getD
          default).cacheSetKey = "lk" ++ ":" ++ "G" ++ ":args" ∧
    ((async_iter addSem (Val.str "f") [Val.tuple [Val.int 1, Val.int 2], Val.int 9] []
        (Val.bool false) false 0 "lk" "G" (fun _ => ("n", "id"))).getD
          default).cacheSetVal
      = SignedPackage.dumps [Val.tuple [Val.int 1, Val.int 2], Val.int 9] :=
  c5_amended addSem (Val.str "f") [Val.tuple [Val.int 1, Val.int 2], Val.int 9] []
    (Val.bool false) false 0 "lk" "G" (fun _ => ("n", "id")) _ rfl rfl

/-! ### Claim C8 -/

/-- C8: calling `result`, `fetch` or `current` on an `Iter` or `Chain`
handle whose `started` flag is false returns the absent value (`None`) and
raises no exception, regardless of the `wait` argument (tasks.py lines
466-482, 527-553: every one of these methods is guarded by `if
self.started` / `if not self.started`). -/
theorem c8_never_run_absent (hi : IterHandle) (hc : ChainHandle)
    (store : Nat → Val) (cache task_at : Nat → Option TaskRec)
    (group_at : Nat → List Val) (gtasks : Nat → List TaskRec)
    (count_at : Nat → Option Int) (group_list : Nat → List String)
    (glNow : List String) (task_of : String → TaskRec) (store_count : Option Int)
    (failures : Bool) (elapsed : Nat → Nat) (wait : Int) (fuel : Nat)
    (h1 : hi.started = false) (h2 : hc.started = false) :
    hi.result store cache elapsed wait fuel = some Val.none ∧
    hi.fetch task_at cache elapsed wait fuel = some Option.none ∧
    hc.result group_at count_at group_list task_of elapsed wait fuel = some Option.none ∧
    hc.fetch gtasks count_at group_list task_of failures elapsed wait fuel
      = some Option.none ∧
    hc.current store_count glNow task_of = Option.none := by
  refine ⟨?_, ?_, ?_, ?_, ?_⟩ <;>
    simp [IterHandle.result, IterHandle.fetch, ChainHandle.result, ChainHandle.fetch,
      ChainHandle.current, h1, h2]

/-- Witness for C8 at a concrete never-run `Iter` handle and `Chain`
handle, with a negative `wait`. -/
theorem c8_witness :
    iter_idle_example.started = false ∧
    chain_idle_example.started = false ∧
    (iter_idle_example.result (fun _ => Val.none) (fun _ => Option.none) (fun n => 10 * n)
        (-7) 3 = some Val.none ∧
      iter_idle_example.fetch (fun _ => Option.none) (fun _ => Option.none)
        (fun n => 10 * n) (-7) 3 = some Option.none ∧
      chain_idle_example.result (fun _ => []) (fun _ => Option.none) (fun _ => [])
        (fun _ => {}) (fun n => 10 * n) (-7) 3 = some Option.none ∧
      chain_idle_example.fetch (fun _ => []) (fun _ => Option.none) (fun _ => [])
        (fun _ => {}) true (fun n => 10 * n) (-7) 3 = some Option.none ∧
      chain_idle_example.current (some 2) [] (fun _ => {}) = Option.none) :=
  ⟨rfl, rfl, c8_never_run_absent iter_idle_example chain_idle_example _ _ _ _ _ _ _ _ _ _
    _ _ (-7) 3 rfl rfl⟩

/-! ### Claim C7 -/

/-- C7: appending to a handle whose `started` flag is true resets `started`
to false — for `Chain` after first calling `delete_group(self.group)` on
the previous run's group data (tasks.py lines 445-452 and 505-515) — so an
immediately following `result()` call returns the absent value, whatever
`wait` is, until `run()` is called again. -/
theorem c7_append_resets (hi : IterHandle) (hc : ChainHandle) (newArgs : List Val)
    (f : Val) (a : List Val) (kw : Dict)
    (store : Nat → Val) (cache : Nat → Option TaskRec)
    (group_at : Nat → List Val) (count_at : Nat → Option Int)
    (group_list : Nat → List String) (task_of : String → TaskRec)
    (elapsed : Nat → Nat) (wait : Int) (fuel : Nat)
    (h1 : hi.started = true) (h2 : hc.started = true) :
    (hi.append newArgs).1.started = false ∧
    (hc.append f a kw).1.started = false ∧
    (hc.append f a kw).2.1 = some hc.group ∧
    (hi.append newArgs).1.result store cache elapsed wait fuel = some Val.none ∧
    (hc.append f a kw).1.result group_at count_at group_list task_of elapsed wait fuel
      = some Option.none := by
  refine ⟨?_, ?_, ?_, ?_, ?_⟩ <;>
    simp [IterHandle.append, ChainHandle.append, IterHandle.result, ChainHandle.result,
      h1, h2]

/-- Witness for C7 at concrete already-run handles. -/
theorem c7_witness :
    iter_started_example.started = true ∧
    chain_started_example.started = true ∧
    ((iter_started_example.append [Val.int 2]).1.started = false ∧
      (chain_started_example.append (Val.str "g") [] []).1.started = false ∧
      (chain_started_example.append (Val.str "g") [] []).2.1 = some "gc" ∧
      (iter_started_example.append [Val.int 2]).1.result (fun _ => Val.none)
        (fun _ => Option.none) (fun n => 10 * n) (-3) 5 = some Val.none ∧
      (chain_started_example.append (Val.str "g") [] []).1.result (fun _ => [])
        (fun _ => Option.none) (fun _ => []) (fun _ => {}) (fun n => 10 * n) (-3) 5
        = some Option.none) :=
  ⟨rfl, rfl, c7_append_resets iter_started_example chain_started_example [Val.int 2]
    (Val.str "g") [] [] _ _ _ _ _ _ _ (-3) 5 rfl rfl⟩

/-! ### Claim C9 -/

/-- C9: `async_chain` destructively mutates the caller-supplied steps list:
whenever the call returns, the caller's list has lost its first element
(the `chain.pop(0)` of tasks.py line 414 acts on the caller's own list
object), so its final length is one less than before. -/
theorem c9_chain_pop_mutates (funcSem : Val → List Val → Dict → Val) (chain : List Val)
    (group : String) (cached sync brokerArg confCached : Val) (confSync : Bool)
    (now : Nat) (gidFresh : String) (tag : String × String) (out : ChainOut)
    (h : async_chain funcSem chain group cached sync brokerArg confCached confSync now
      gidFresh tag = some out) :
    out.callerChain = chain.drop 1 ∧ out.callerChain.length + 1 = chain.length := by
  cases chain with
  | nil => exact Option.noConfusion h
  | cons task0 rest =>
    have h' : async_chain_step funcSem task0 rest (if group = "" then gidFresh else group)
        cached sync brokerArg confCached confSync now tag = some out := h
    unfold async_chain_step at h'
    cases hp : parse_step task0 with
    | none =>
      rw [hp] at h'
      exact Option.noConfusion h'
    | some st =>
      obtain ⟨f, args, kw⟩ := st
      rw [hp] at h'
      simp only at h'
      cases ha : async funcSem f args
          (setKey (setKey (setKey (setKey (setKey kw "chain" (Val.list rest)) "group"
            (Val.str (if group = "" then gidFresh else group))) "cached" cached) "sync" sync)
            "broker" (if brokerArg.truthy then brokerArg else get_broker))
          confCached confSync now tag with
      | none =>
        rw [ha] at h'
        exact Option.noConfusion h'
      | some o =>
        rw [ha] at h'
        injection h' with h1
        rw [← h1]
        exact ⟨rfl, rfl⟩

/-- Witness for C9: a concrete two-step chain loses its head; the caller's
list keeps exactly the second step. -/
theorem c9_witness :
    ((async_chain (fun _ _ _ => Val.none)
        [Val.tuple [Val.str "f1", Val.tuple [Val.int 1], Val.dict []],
         Val.tuple [Val.str "f2", Val.tuple [Val.int 2], Val.dict []]]
        "" (Val.bool false) (Val.bool false) Val.none (Val.bool false) false 0 "gfresh"
        ("n1", "id1")).getD default).callerChain
      = [Val.tuple [Val.str "f2", Val.tuple [Val.int 2], Val.dict []]] ∧
    ((async_chain (fun _ _ _ => Val.none)
        [Val.tuple [Val.str "f1", Val.tuple [Val.int 1], Val.dict []],
         Val.tuple [Val.str "f2", Val.tuple [Val.int 2], Val.dict []]]
        "" (Val.bool false) (Val.bool false) Val.none (Val.bool false) false 0 "gfresh"
        ("n1", "id1")).getD default).callerChain.length + 1
      = ([Val.tuple [Val.str "f1", Val.tuple [Val.int 1], Val.dict []],
          Val.tuple [Val.str "f2", Val.tuple [Val.int 2], Val.dict []]] : List Val).length :=
  c9_chain_pop_mutates (fun _ _ _ => Val.none)
    [Val.tuple [Val.str "f1", Val.tuple [Val.int 1], Val.dict []],
     Val.tuple [Val.str "f2", Val.tuple [Val.int 2], Val.dict []]]
    "" (Val.bool false) (Val.bool false) Val.none (Val.bool false) false 0 "gfresh"
    ("n1", "id1") _ rfl

/-! ### Claim C6 -/

/-- C6: `Chain.run` submits a copy (`self.chain[:]`) of the current step
sequence, so after `run()` the handle's own step list — and therefore
`length()` — is unchanged, the returned group id has been recorded on the
handle, and `started` is true (tasks.py lines 517-525). -/
theorem c6_run_preserves_steps (h : ChainHandle) (funcSem : Val → List Val → Dict → Val)
    (confCached : Val) (confSync : Bool) (now : Nat) (gidFresh : String)
    (tag : String × String) (r : ChainHandle × String × ChainOut)
    (hr : h.run funcSem confCached confSync now gidFresh tag = some r) :
    r.1.chain = h.chain ∧ r.1.length = h.length ∧ r.1.group = r.2.1 ∧
    r.1.started = true := by
  unfold ChainHandle.run at hr
  cases hac : async_chain funcSem h.chain h.group h.cached h.sync h.broker confCached
      confSync now gidFresh tag with
  | none => rw [hac] at hr; exact Option.noConfusion hr
  | some o =>
    rw [hac] at hr
    injection hr with h1
    rw [← h1]
    exact ⟨rfl, rfl, rfl, rfl⟩

/-- Witness for C6 at a concrete two-step chain handle: evaluating
`Chain.run` keeps the two steps on the handle, records the fresh group id
and sets the flag. -/
theorem c6_witness :
    ((chain_two_steps_example.run (fun _ _ _ => Val.none) (Val.bool false) false 0 "gnew"
        ("n1", "id1")).getD default).1.chain = chain_two_steps_example.chain ∧
    ((chain_two_steps_example.run (fun _ _ _ => Val.none) (Val.bool false) false 0 "gnew"
        ("n1", "id1")).getD default).1.length = chain_two_steps_example.length ∧
    ((chain_two_steps_example.run (fun _ _ _ => Val.none) (Val.bool false) false 0 "gnew"
        ("n1", "id1")).getD default).1.group
      = ((chain_two_steps_example.run (fun _ _ _ => Val.none) (Val.bool false) false 0
          "gnew" ("n1", "id1")).getD default).2.1 ∧
    ((chain_two_steps_example.run (fun _ _ _ => Val.none) (Val.bool false) false 0 "gnew"
        ("n1", "id1")).getD default).1.started = true :=
  c6_run_preserves_steps chain_two_steps_example (fun _ _ _ => Val.none) (Val.bool false)
    false 0 "gnew" ("n1", "id1") _ rfl

/-! ### Claim C10 -/

/-- C10: `delete_group_cached` reads the group index key and passes the
retrieved value directly to `cache.delete_many` without checking for
absence; for a group id whose index key is missing, the absent (`None`)
value itself is forwarded to `delete_many` (tasks.py lines 345-354). -/
theorem c10_delete_unguarded (cache_get : String → Option (List String))
    (list_key group_id : String)
    (h : cache_get (list_key ++ ":" ++ group_id ++ ":keys") = Option.none) :
    (delete_group_cached cache_get list_key group_id).deleteManyArg = Option.none ∧
    (delete_group_cached cache_get list_key group_id).deletedKey
      = list_key ++ ":" ++ group_id ++ ":keys" :=
  ⟨h, rfl⟩

/-- Witness for C10: an empty cache, a concrete group id. -/
theorem c10_witness :
    ((fun _ : String => (Option.none : Option (List String)))
        ("q" ++ ":" ++ "g1" ++ ":keys") = Option.none) ∧
    ((delete_group_cached (fun _ => Option.none) "q" "g1").deleteManyArg = Option.none ∧
     (delete_group_cached (fun _ => Option.none) "q" "g1").deletedKey
       = "q" ++ ":" ++ "g1" ++ ":keys") :=
  ⟨rfl, c10_delete_unguarded (fun _ => Option.none) "q" "g1" rfl⟩

end DjangoQ
